import Mathlib

/-
Verification of the apex-labs checkout / payment-reconciliation core.

This file gives a shallow embedding, in Lean 4, of the code that the
specification's claims are about:

* the tiered pricing functions
  (functions/src/paypal/createPayPalOrder: getTieredPrice, and
   functions/src/stripe/createCheckoutSession.js: validateAndBuildLineItems);
* the client cart loaders
  (js/cart.js: Cart.loadCart, and assets/js/cart-manager.js: CartManager.loadCart);
* the checkout-session initiators
  (functions/src/stripe/createCheckoutSession.js: createCheckoutSession, and
   functions/src/paypal/createPayPalOrder.js: createPayPalOrder), modelled at
   the granularity of their externally visible effects (processor calls and
   pending-order writes);
* the webhook reconcilers
  (functions/src/stripe/webhookHandler.js and
   functions/src/paypal/webhookHandler.js) and the PayPal capture endpoint
  (functions/src/paypal/capturePayPalOrder.js), modelled as state
  transformers on an explicit order store.

Modelling conventions:

* JavaScript numbers are modelled as `Rat` (all monetary literals in the
  source are exact decimals), Stripe cent amounts as `Int`.
* JavaScript `undefined`/missing object fields are modelled as `Option`;
  the JS truthiness of strings (empty string is falsy) is modelled by
  `jsOrStr` below.
* Firestore server-timestamp fields are written by the code as an opaque
  sentinel whose resolved wall-clock value is assigned by the store; they
  are modelled as a `Bool` flag recording whether the field has been
  written.  Wall-clock time itself is outside the embedding.
* Firestore collections are modelled as association lists keyed by
  document id; a `where field == v limit 1` query is the first list entry
  whose document satisfies the predicate, and an update maps over the
  entries with the given key.
* external network calls (Stripe/PayPal APIs) are modelled as oracle
  inputs: the handler is a function of the request together with the
  processor's reply, and the sequence of outbound calls is recorded in an
  explicit effect trace where a claim is about ordering.
-/

/-! ## JavaScript-semantics helpers -/

/-- JS `s.includes(sub)` on strings. -/
def jsIncludes (s sub : String) : Bool := decide (sub.data <:+: s.data)

/-- JS `a || b` for string-valued expressions, where a missing value
(`none`) and the empty string are falsy. -/
def jsOrStr : Option String → Option String → Option String
  | some s, b => if s = "" then b else some s
  | none, b => b

/-- JS truthiness filter for an optional string: `some ""` and `none` are
falsy. -/
def strTruthy (o : Option String) : Option String := jsOrStr o none

/-! ## Pricing engine

Embeds `getTieredPrice` from functions/src/paypal/createPayPalOrder.js
(prices in dollars) and the price computation inlined in
`validateAndBuildLineItems` from
functions/src/stripe/createCheckoutSession.js (prices in cents).  Both
take the cart item's `id` and `name` fields and its quantity; the first
two branches also match on the item name. -/

/-- Embeds `getTieredPrice(item)` (PayPal initiator): tiered unit price in
dollars as a function of the item's `id`, `name` and `quantity`. -/
def getTieredPrice (id name : String) (quantity : Nat) : Rat :=
  if id == "nadplus" || jsIncludes name "NAD+" then
    if quantity ≥ 25 then 35 else if quantity ≥ 10 then 44 else 55
  else if id == "reta" || jsIncludes name "RETA" then
    if quantity ≥ 25 then 45 else if quantity ≥ 10 then 56 else 70
  else if id == "mots-c" then
    if quantity ≥ 25 then 30 else if quantity ≥ 10 then 36 else 45
  else if id == "pt-141" || id == "ipamorelin" then
    if quantity ≥ 25 then 25 else if quantity ≥ 10 then 30 else 38
  else if id == "bpc-157" then
    if quantity ≥ 25 then 28 else if quantity ≥ 10 then 34 else 42
  else if id == "ghk-cu" then
    if quantity ≥ 25 then 29 else if quantity ≥ 10 then 35 else 44
  else if id == "tesamorelin" then
    if quantity ≥ 25 then 38 else if quantity ≥ 10 then 46 else 58
  else
    if quantity ≥ 25 then 35 else if quantity ≥ 10 then 44 else 55

/-- Embeds the `unitAmount` computation of `validateAndBuildLineItems`
(Stripe initiator): tiered unit price in cents. -/
def stripeUnitAmount (id name : String) (quantity : Nat) : Nat :=
  if id == "nadplus" || jsIncludes name "NAD+" then
    if quantity ≥ 25 then 3500 else if quantity ≥ 10 then 4400 else 5500
  else if id == "reta" || jsIncludes name "RETA" then
    if quantity ≥ 25 then 4500 else if quantity ≥ 10 then 5600 else 7000
  else if id == "mots-c" then
    if quantity ≥ 25 then 3000 else if quantity ≥ 10 then 3600 else 4500
  else if id == "pt-141" || id == "ipamorelin" then
    if quantity ≥ 25 then 2500 else if quantity ≥ 10 then 3000 else 3800
  else if id == "bpc-157" then
    if quantity ≥ 25 then 2800 else if quantity ≥ 10 then 3400 else 4200
  else if id == "ghk-cu" then
    if quantity ≥ 25 then 2900 else if quantity ≥ 10 then 3500 else 4400
  else if id == "tesamorelin" then
    if quantity ≥ 25 then 3800 else if quantity ≥ 10 then 4600 else 5800
  else
    if quantity ≥ 25 then 3500 else if quantity ≥ 10 then 4400 else 5500

/-- The three per-branch price points of `getTieredPrice`, as
(tier-2 price for quantity at least 25, tier-1 price for quantity in
[10, 25), base price), a pure function of the item's id and name. -/
def tierTriple (id name : String) : Rat × Rat × Rat :=
  if id == "nadplus" || jsIncludes name "NAD+" then (35, 44, 55)
  else if id == "reta" || jsIncludes name "RETA" then (45, 56, 70)
  else if id == "mots-c" then (30, 36, 45)
  else if id == "pt-141" || id == "ipamorelin" then (25, 30, 38)
  else if id == "bpc-157" then (28, 34, 42)
  else if id == "ghk-cu" then (29, 35, 44)
  else if id == "tesamorelin" then (38, 46, 58)
  else (35, 44, 55)

/-- Selection of one of the three tier prices by quantity, with the
thresholds 25 and 10 as in the source. -/
def tierSelect (t : Rat × Rat × Rat) (q : Nat) : Rat :=
  if q ≥ 25 then t.1 else if q ≥ 10 then t.2.1 else t.2.2

set_option maxHeartbeats 1000000 in
theorem getTieredPrice_eq_tier (id name : String) (q : Nat) :
    getTieredPrice id name q = tierSelect (tierTriple id name) q := by
  unfold getTieredPrice tierTriple tierSelect
  by_cases h25 : q ≥ 25 <;> by_cases h10 : q ≥ 10 <;>
    simp only [h25, h10, if_true, if_false] <;>
    repeat' split
  all_goals simp_all

theorem tierTriple_sorted (id name : String) :
    (tierTriple id name).1 ≤ (tierTriple id name).2.1 ∧
      (tierTriple id name).2.1 ≤ (tierTriple id name).2.2 := by
  unfold tierTriple
  repeat' split
  all_goals exact ⟨by norm_num, by norm_num⟩

theorem tierSelect_antitone (t : Rat × Rat × Rat) (hs : t.1 ≤ t.2.1 ∧ t.2.1 ≤ t.2.2)
    {q1 q2 : Nat} (h : q1 ≤ q2) : tierSelect t q2 ≤ tierSelect t q1 := by
  unfold tierSelect
  repeat' split
  all_goals first
    | exact le_refl _
    | exact hs.1
    | exact hs.2
    | exact le_trans hs.1 hs.2
    | omega

set_option maxHeartbeats 1000000 in
theorem stripeUnitAmount_eq_cents (id name : String) (q : Nat) :
    (stripeUnitAmount id name q : Rat) = 100 * getTieredPrice id name q := by
  unfold stripeUnitAmount getTieredPrice
  by_cases h25 : q ≥ 25 <;> by_cases h10 : q ≥ 10 <;>
    simp only [h25, h10, if_true, if_false] <;> repeat' split
  all_goals norm_num

/-- C5 counterexample: the unit price is not a function of (sku, quantity)
alone.  Two items with the same id `mots-c` and the same quantity 1 are
priced differently depending on the item's display name, because the
source matches the NAD+ product family by name before checking the id. -/
theorem getTieredPrice_depends_on_name :
    getTieredPrice "mots-c" "NAD+ 500mg" 1 = 55 ∧
    getTieredPrice "mots-c" "MOTS-C 10mg" 1 = 45 ∧
    stripeUnitAmount "mots-c" "NAD+ 500mg" 1 = 5500 ∧
    stripeUnitAmount "mots-c" "MOTS-C 10mg" 1 = 4500 := by
  refine ⟨?_, ?_, ?_, ?_⟩ <;> decide

/-- C5 (amended): the pricing function is a pure function of the item's
id, name and quantity (the name participates in matching the NAD+ and
RETA product families); for every fixed id and name it has exactly three
tiers with thresholds 10 and 25, quantities below 10 get the base price,
quantities in [10, 25) the middle price, quantities at least 25 the
lowest price, and the price is monotonically non-increasing in the
quantity; the Stripe initiator computes the same prices in cents. -/
theorem getTieredPrice_three_tiers_antitone (id name : String) :
    (∀ q : Nat, q < 10 → getTieredPrice id name q = (tierTriple id name).2.2) ∧
    (∀ q : Nat, 10 ≤ q → q < 25 → getTieredPrice id name q = (tierTriple id name).2.1) ∧
    (∀ q : Nat, 25 ≤ q → getTieredPrice id name q = (tierTriple id name).1) ∧
    (∀ q1 q2 : Nat, q1 < q2 → getTieredPrice id name q2 ≤ getTieredPrice id name q1) ∧
    (∀ q : Nat, (stripeUnitAmount id name q : Rat) = 100 * getTieredPrice id name q) := by
  have hs := tierTriple_sorted id name
  refine ⟨?_, ?_, ?_, ?_, fun q => stripeUnitAmount_eq_cents id name q⟩
  · intro q hq
    rw [getTieredPrice_eq_tier]
    unfold tierSelect
    rw [if_neg (by omega), if_neg (by omega)]
  · intro q hq1 hq2
    rw [getTieredPrice_eq_tier]
    unfold tierSelect
    rw [if_neg (by omega), if_pos (by omega)]
  · intro q hq
    rw [getTieredPrice_eq_tier]
    unfold tierSelect
    rw [if_pos (by omega)]
  · intro q1 q2 h
    rw [getTieredPrice_eq_tier, getTieredPrice_eq_tier]
    exact tierSelect_antitone _ hs (Nat.le_of_lt h)

/-- Witness for the amended C5 theorem at sku bpc-157. -/
theorem getTieredPrice_three_tiers_antitone_witness :
    getTieredPrice "bpc-157" "BPC-157 5mg" 9 = 42 ∧
    getTieredPrice "bpc-157" "BPC-157 5mg" 10 = 34 ∧
    getTieredPrice "bpc-157" "BPC-157 5mg" 25 = 28 ∧
    getTieredPrice "bpc-157" "BPC-157 5mg" 25 ≤ getTieredPrice "bpc-157" "BPC-157 5mg" 9 := by
  have h := getTieredPrice_three_tiers_antitone "bpc-157" "BPC-157 5mg"
  refine ⟨?_, ?_, ?_, h.2.2.2.1 9 25 (by norm_num)⟩
  · rw [h.1 9 (by norm_num)]; decide
  · rw [h.2.1 10 (by norm_num) (by norm_num)]; decide
  · rw [h.2.2.1 25 (by norm_num)]; decide

/-! ## Cart store

Embeds the two loaders of the persisted cart value.  `loadCart` embeds
`Cart.loadCart` from js/cart.js: the stored string is parsed by the
platform's JSON parser (modelled as an oracle `Except` input: `none` is a
missing/falsy stored value, `.error` a parse exception, `.ok v` the parsed
JSON value), the whole value is dropped unless it is an array, and each
entry is filtered by the structural checks of the source.  `cmLoadCart`
embeds `CartManager.loadCart` from assets/js/cart-manager.js, which
assigns the parsed value to the cart without any structural check.  Both
functions are total, which is the never-throws part of the claim: every
exception of the source (the JSON parse) is caught. -/

/-- JSON values as produced by the platform JSON parser (no `undefined`,
no NaN). -/
inductive JVal where
  | jnull
  | jbool (b : Bool)
  | jnum (q : Rat)
  | jstr (s : String)
  | jarr (elems : List JVal)
  | jobj (fields : List (String × JVal))
deriving Repr

/-- JS property access `v[k]`: `none` models `undefined`. -/
def jprop : JVal → String → Option JVal
  | .jobj fields, k => (fields.find? (fun f => f.1 == k)).map (fun f => f.2)
  | _, _ => none

/-- JS truthiness of a JSON value. -/
def jsTruthy : JVal → Bool
  | .jnull => false
  | .jbool b => b
  | .jnum q => q != 0
  | .jstr s => s != ""
  | .jarr _ => true
  | .jobj _ => true

/-- JS `a || b` on possibly-undefined JSON values. -/
def jsOrVal (a b : Option JVal) : Option JVal :=
  match a with
  | some v => if jsTruthy v then some v else b
  | none => b

/-- Character class of the id-validation pattern of Cart.loadCart:
letters, digits, hyphen, underscore, colon. -/
def idCharOk (c : Char) : Bool :=
  c.isAlphanum || c == '-' || c == '_' || c == ':'

/-- The full-string match of Cart.loadCart's id pattern: one or more
characters of the restricted class. -/
def idMatches (s : String) : Bool :=
  !s.isEmpty && s.data.all idCharOk

/-- Embeds the per-entry filter inside `Cart.loadCart` (js/cart.js
lines 40 to 66). -/
def validCartEntry (item : JVal) : Bool :=
  match item with
  | .jobj _ | .jarr _ =>
    (match jsOrVal (jprop item "id") (jprop item "priceId") with
     | some (.jstr s) => idMatches s
     | _ => false)
    &&
    (match jprop item "quantity" with
     | some (.jnum q) => decide (1 ≤ q) && decide (q ≤ 1000)
     | _ => false)
    &&
    (match jprop item "price" with
     | none => true
     | some (.jnum p) => decide (0 ≤ p) && decide (p ≤ 100000)
     | some _ => false)
    &&
    (match jprop item "name" with
     | none => true
     | some (.jstr s) => decide (s.length ≤ 200)
     | some _ => false)
    &&
    (match jprop item "category" with
     | none => true
     | some (.jstr s) => decide (s.length ≤ 100)
     | some _ => false)
    &&
    (match jprop item "image" with
     | none => true
     | some (.jstr s) => decide (s.length ≤ 500)
     | some _ => false)
  | _ => false

/-- Embeds `Cart.loadCart` (js/cart.js). -/
def loadCart (saved : Option (Except Unit JVal)) : List JVal :=
  match saved with
  | none => []
  | some (.error _) => []
  | some (.ok v) =>
    match v with
    | .jarr elems => elems.filter validCartEntry
    | _ => []

/-- Embeds `CartManager.loadCart` (assets/js/cart-manager.js): the parsed
value is assigned to the cart as-is; only a parse failure resets the cart
to the empty array, and a missing stored value leaves the previous cart. -/
def cmLoadCart (cart : JVal) (saved : Option (Except Unit JVal)) : JVal :=
  match saved with
  | none => cart
  | some (.error _) => .jarr []
  | some (.ok v) => v

/-- The id field (or, as fallback, priceId) is a string over the
restricted character class. -/
def hasValidId (item : JVal) : Prop :=
  ∃ s, jsOrVal (jprop item "id") (jprop item "priceId") = some (.jstr s) ∧
    idMatches s = true

/-- The quantity field is a number in [1, 1000]. -/
def hasValidQuantity (item : JVal) : Prop :=
  ∃ q : Rat, jprop item "quantity" = some (.jnum q) ∧ 1 ≤ q ∧ q ≤ 1000

/-- The price field, if present, is a number in [0, 100000]. -/
def hasValidPrice (item : JVal) : Prop :=
  jprop item "price" = none ∨
    ∃ p : Rat, jprop item "price" = some (.jnum p) ∧ 0 ≤ p ∧ p ≤ 100000

/-- The given field, if present, is a string of bounded length. -/
def boundedStrField (item : JVal) (key : String) (bound : Nat) : Prop :=
  jprop item key = none ∨
    ∃ s : String, jprop item key = some (.jstr s) ∧ s.length ≤ bound

theorem validCartEntry_spec (item : JVal) (h : validCartEntry item = true) :
    hasValidId item ∧ hasValidQuantity item ∧ hasValidPrice item ∧
      boundedStrField item "name" 200 ∧ boundedStrField item "category" 100 ∧
      boundedStrField item "image" 500 := by
  unfold validCartEntry at h
  have hsplit : ∀ b1 b2 b3 b4 b5 b6 : Bool,
      (b1 && b2 && b3 && b4 && b5 && b6) = true →
      b1 = true ∧ b2 = true ∧ b3 = true ∧ b4 = true ∧ b5 = true ∧ b6 = true := by
    decide
  cases item with
  | jobj fields =>
    obtain ⟨h1, h2, h3, h4, h5, h6⟩ := hsplit _ _ _ _ _ _ h
    refine ⟨?_, ?_, ?_, ?_, ?_, ?_⟩
    · unfold hasValidId
      split at h1
      · next s heq => exact ⟨s, heq, h1⟩
      · exact absurd h1 (by simp)
    · unfold hasValidQuantity
      split at h2
      · next q heq =>
        simp only [Bool.and_eq_true, decide_eq_true_eq] at h2
        exact ⟨q, heq, h2.1, h2.2⟩
      · exact absurd h2 (by simp)
    · unfold hasValidPrice
      split at h3
      · next heq => exact Or.inl heq
      · next p heq =>
        simp only [Bool.and_eq_true, decide_eq_true_eq] at h3
        exact Or.inr ⟨p, heq, h3.1, h3.2⟩
      · exact absurd h3 (by simp)
    · unfold boundedStrField
      split at h4
      · next heq => exact Or.inl heq
      · next s heq =>
        simp only [decide_eq_true_eq] at h4
        exact Or.inr ⟨s, heq, h4⟩
      · exact absurd h4 (by simp)
    · unfold boundedStrField
      split at h5
      · next heq => exact Or.inl heq
      · next s heq =>
        simp only [decide_eq_true_eq] at h5
        exact Or.inr ⟨s, heq, h5⟩
      · exact absurd h5 (by simp)
    · unfold boundedStrField
      split at h6
      · next heq => exact Or.inl heq
      · next s heq =>
        simp only [decide_eq_true_eq] at h6
        exact Or.inr ⟨s, heq, h6⟩
      · exact absurd h6 (by simp)
  | jarr elems =>
    obtain ⟨h1, h2, h3, h4, h5, h6⟩ := hsplit _ _ _ _ _ _ h
    exact absurd h1 (by simp [jprop, jsOrVal])
  | jnull => exact absurd h (by simp)
  | jbool b => exact absurd h (by simp)
  | jnum q => exact absurd h (by simp)
  | jstr s => exact absurd h (by simp)

/-- The rational number 5/2, written with explicit numerator and
denominator so that it evaluates inside the kernel. -/
def fiveHalves : Rat := ⟨5, 2, by norm_num, by norm_num [Nat.Coprime]⟩

/-- Cart entry with a fractional quantity, used by the C8 counterexample. -/
def fracQtyEntry : JVal :=
  .jobj [("id", .jstr "bpc-157"), ("quantity", .jnum fiveHalves)]

/-- C8 counterexample: Cart.loadCart keeps an entry whose quantity is the
non-integer 5/2 (the source checks only that the quantity is a number in
[1, 1000], not that it is an integer), and CartManager.loadCart does not
return the empty list on a stored value that parses to the non-list JSON
number 7; it stores that value as the cart. -/
theorem loadCart_not_fully_validating :
    loadCart (some (.ok (.jarr [fracQtyEntry]))) = [fracQtyEntry] ∧
    fiveHalves.den ≠ 1 ∧
    cmLoadCart (.jarr []) (some (.ok (.jnum 7))) = .jnum 7 ∧
    cmLoadCart (.jarr []) (some (.ok (.jnum 7))) ≠ .jarr [] := by
  refine ⟨rfl, by decide, rfl, fun hc => JVal.noConfusion hc⟩

/-- C8 (amended): both loaders are total (never throw).  Cart.loadCart
returns the empty list whenever the parsed value is not a list, and every
entry it returns has an id over the restricted character class, a numeric
quantity in [1, 1000] (not necessarily an integer), a price in
[0, 100000] when present, and length-bounded name, category and image
strings.  CartManager.loadCart performs no structural validation: a parse
failure resets the cart to the empty array and any successfully parsed
value, list or not, becomes the cart unchanged. -/
theorem loadCart_safe :
    (∀ v : JVal, (∀ elems, v ≠ .jarr elems) → loadCart (some (.ok v)) = []) ∧
    (∀ saved item, item ∈ loadCart saved →
       hasValidId item ∧ hasValidQuantity item ∧ hasValidPrice item ∧
         boundedStrField item "name" 200 ∧ boundedStrField item "category" 100 ∧
         boundedStrField item "image" 500) ∧
    (∀ cart, cmLoadCart cart (some (.error ())) = .jarr []) ∧
    (∀ cart v, cmLoadCart cart (some (.ok v)) = v) := by
  refine ⟨?_, ?_, fun _ => rfl, fun _ _ => rfl⟩
  · intro v hv
    cases v with
    | jarr elems => exact absurd rfl (hv elems)
    | jnull => rfl
    | jbool b => rfl
    | jnum q => rfl
    | jstr s => rfl
    | jobj fields => rfl
  · intro saved item hm
    match saved with
    | none => exact absurd hm (by simp [loadCart])
    | some (.error _) => exact absurd hm (by simp [loadCart])
    | some (.ok v) =>
      match v with
      | .jarr elems =>
        have hval : validCartEntry item = true :=
          (List.mem_filter.mp (by simpa [loadCart] using hm)).2
        exact validCartEntry_spec item hval
      | .jnull => exact absurd hm (by simp [loadCart])
      | .jbool b => exact absurd hm (by simp [loadCart])
      | .jnum q => exact absurd hm (by simp [loadCart])
      | .jstr s => exact absurd hm (by simp [loadCart])
      | .jobj fields => exact absurd hm (by simp [loadCart])

/-- Well-formed cart entry used by the C8 witness. -/
def okCartEntry : JVal :=
  .jobj [("id", .jstr "bpc-157"), ("quantity", .jnum 3), ("price", .jnum 42)]

/-- Witness for the amended C8 theorem: a non-list stored value yields the
empty cart, and a well-formed kept entry satisfies the structural bounds. -/
theorem loadCart_safe_witness :
    loadCart (some (.ok (.jstr "tampered"))) = [] ∧ hasValidQuantity okCartEntry := by
  constructor
  · exact loadCart_safe.1 (.jstr "tampered") (fun _ h => JVal.noConfusion h)
  · have hmem : okCartEntry ∈ loadCart (some (.ok (.jarr [okCartEntry]))) := by
      rw [show loadCart (some (.ok (.jarr [okCartEntry]))) = [okCartEntry] from rfl]
      exact List.mem_singleton.mpr rfl
    exact (loadCart_safe.2.1 _ okCartEntry hmem).2.1

/-! ## Order store

An order document carries the fields written by the checkout initiators,
the webhook reconcilers and the capture endpoint.  The orders collection
is an association list of (document id, document); the per-user
order-history mirror is keyed by (user id, order id). -/

/-- The order status strings written by the source. -/
inductive OrderStatus where
  | pending
  | paid
  | expired
  | payment_failed
  | refunded
  | partially_refunded
deriving DecidableEq, Repr

/-- An entry of an order document's items array (pass-through client
data; the reconcilers never recompute it). -/
structure StoredItem where
  id : Option String := none
  sku : Option String := none
  priceId : Option String := none
  name : Option String := none
  price : Option Rat := none
  quantity : Option Rat := none
  image : Option String := none
deriving DecidableEq, Repr

/-- An order document in the orders collection.  Timestamp fields are
`Bool` sentinels (see the header comment). -/
structure OrderDoc where
  status : OrderStatus
  stripeSessionId : Option String := none
  stripePaymentIntentId : Option String := none
  stripeCustomerId : Option String := none
  paypalOrderId : Option String := none
  paypalCaptureId : Option String := none
  paypalPayerId : Option String := none
  paymentStatus : Option String := none
  amountTotal : Option Rat := none
  currency : Option String := none
  refundedAmount : Option Rat := none
  paymentError : Option String := none
  customerEmail : Option String := none
  customerName : Option String := none
  customerPhone : Option String := none
  billingAddress : Option String := none
  shippingAddress : Option String := none
  shippingName : Option String := none
  userId : Option String := none
  items : List StoredItem := []
  createdAt : Bool := false
  updatedAt : Bool := false
  paidAt : Bool := false
  refundedAt : Bool := false
deriving DecidableEq, Repr

/-- The summary record mirrored into a user's personal order-history
collection. -/
structure UserOrderRec where
  status : OrderStatus
  amountTotal : Option Rat
  items : List StoredItem
  createdAt : Bool
  paidAt : Bool
deriving DecidableEq, Repr

/-- The document store: the orders collection and the per-user
order-history mirror. -/
structure Store where
  orders : List (String × OrderDoc)
  userOrders : List ((String × String) × UserOrderRec)
deriving DecidableEq, Repr

/-- Firestore `doc(oid).update(f)`: apply `f` to the document with id
`oid`. -/
def updateOrder (l : List (String × OrderDoc)) (oid : String)
    (f : OrderDoc → OrderDoc) : List (String × OrderDoc) :=
  l.map fun e => if e.1 = oid then (e.1, f e.2) else e

/-- Firestore `doc(oid).get()`. -/
def getOrder (l : List (String × OrderDoc)) (oid : String) : Option OrderDoc :=
  (l.find? (fun e => decide (e.1 = oid))).map (fun e => e.2)

/-- Firestore `where(field == v).limit(1).get()`: the first document
satisfying the predicate. -/
def queryFirst (l : List (String × OrderDoc)) (p : OrderDoc → Bool) :
    Option (String × OrderDoc) :=
  l.find? (fun e => p e.2)

/-- Firestore `set` on a user order-history document: overwrite if the
key exists, append otherwise. -/
def setUserOrder (l : List ((String × String) × UserOrderRec))
    (k : String × String) (v : UserOrderRec) :
    List ((String × String) × UserOrderRec) :=
  if l.any (fun e => e.1 = k) then
    l.map (fun e => if e.1 = k then (k, v) else e)
  else
    l ++ [(k, v)]

/-- Project an order's status out of the store. -/
def statusOf (st : Store) (oid : String) : Option OrderStatus :=
  (getOrder st.orders oid).map (fun d => d.status)

/-- Project an order's amountTotal out of the store. -/
def amountTotalOf (st : Store) (oid : String) : Option (Option Rat) :=
  (getOrder st.orders oid).map (fun d => d.amountTotal)

/-! ## Stripe webhook reconciler

Embeds functions/src/stripe/webhookHandler.js. -/

/-- The `customer_details` object of a Stripe checkout session. -/
structure CustomerDetails where
  email : Option String := none
  name : Option String := none
  phone : Option String := none
  address : Option String := none
deriving DecidableEq, Repr

/-- The `shipping_details` (or legacy `shipping`) object of a session. -/
structure ShippingDetails where
  address : Option String := none
  name : Option String := none
deriving DecidableEq, Repr

/-- The fields of a Stripe checkout-session event object read by the
handlers.  `amount_total` is the processor-reported total in cents. -/
structure StripeSession where
  id : String
  payment_status : Option String := none
  amount_total : Int := 0
  currency : Option String := none
  customer_email : Option String := none
  customer_details : Option CustomerDetails := none
  shipping_details : Option ShippingDetails := none
  shipping : Option ShippingDetails := none
  payment_intent : Option String := none
  customer : Option String := none
  metadata_orderId : Option String := none
deriving DecidableEq, Repr

/-- The fields of a `payment_intent.payment_failed` event object read by
the handler. -/
structure PaymentIntentEv where
  id : String
  lastErrorMessage : Option String := none
deriving DecidableEq, Repr

/-- The fields of a `charge.refunded` event object read by the handler;
amounts in cents. -/
structure ChargeEv where
  id : String
  payment_intent : String
  amount : Int := 0
  amount_refunded : Int := 0
deriving DecidableEq, Repr

/-- Embeds `updateOrderLookup(session, updates)`: primary lookup by
stripeSessionId, fallback lookup by the order id in the session metadata;
the fallback also writes the session id onto the document; every update
stamps updatedAt. -/
def updateOrderLookup (orders : List (String × OrderDoc)) (s : StripeSession)
    (f : OrderDoc → OrderDoc) : Option String × List (String × OrderDoc) :=
  match queryFirst orders (fun d => decide (d.stripeSessionId = some s.id)) with
  | some (oid, _) =>
      (some oid, updateOrder orders oid (fun d => { f d with updatedAt := true }))
  | none =>
    match strTruthy s.metadata_orderId with
    | some moid =>
      match getOrder orders moid with
      | some _ =>
          (some moid,
           updateOrder orders moid
             (fun d => { f d with stripeSessionId := some s.id, updatedAt := true }))
      | none => (none, orders)
    | none => (none, orders)

/-- The `updates` object built by `handleCheckoutComplete`. -/
def checkoutCompleteUpdates (s : StripeSession) (d : OrderDoc) : OrderDoc :=
  let cd := s.customer_details.getD {}
  let sd := (s.shipping_details.orElse (fun _ => s.shipping)).getD {}
  { d with
    status := .paid,
    paymentStatus := s.payment_status,
    amountTotal := some ((s.amount_total : Rat) / 100),
    currency := s.currency,
    customerEmail := jsOrStr cd.email s.customer_email,
    customerName := strTruthy cd.name,
    customerPhone := strTruthy cd.phone,
    billingAddress := strTruthy cd.address,
    shippingAddress := strTruthy sd.address,
    shippingName := strTruthy sd.name,
    stripePaymentIntentId := s.payment_intent,
    stripeCustomerId := strTruthy s.customer,
    paidAt := true }

/-- Embeds `handleCheckoutComplete(session)`: resolve and update the
order, then mirror a summary into the owner's order history when the
order has a userId. -/
def handleCheckoutComplete (st : Store) (s : StripeSession) : Store :=
  match updateOrderLookup st.orders s (checkoutCompleteUpdates s) with
  | (none, orders1) => { st with orders := orders1 }
  | (some oid, orders1) =>
    match getOrder orders1 oid with
    | none => { st with orders := orders1 }
    | some od =>
      match strTruthy od.userId with
      | none => { st with orders := orders1 }
      | some uid =>
        { orders := orders1,
          userOrders := setUserOrder st.userOrders (uid, oid)
            { status := .paid,
              amountTotal := some ((s.amount_total : Rat) / 100),
              items := od.items,
              createdAt := od.createdAt,
              paidAt := true } }

/-- Embeds `handleCheckoutExpired(session)`. -/
def handleCheckoutExpired (st : Store) (s : StripeSession) : Store :=
  { st with
    orders := (updateOrderLookup st.orders s (fun d => { d with status := .expired })).2 }

/-- Embeds `handlePaymentFailed(paymentIntent)`. -/
def handlePaymentFailed (st : Store) (p : PaymentIntentEv) : Store :=
  match queryFirst st.orders (fun d => decide (d.stripePaymentIntentId = some p.id)) with
  | none => st
  | some (oid, _) =>
    { st with
      orders := updateOrder st.orders oid (fun d =>
        { d with
          status := .payment_failed,
          paymentError := jsOrStr p.lastErrorMessage (some "Payment failed"),
          updatedAt := true }) }

/-- Embeds `handleChargeRefunded(charge)`: full refund when the refunded
amount equals the charge amount. -/
def handleChargeRefunded (st : Store) (c : ChargeEv) : Store :=
  match queryFirst st.orders (fun d => decide (d.stripePaymentIntentId = some c.payment_intent)) with
  | none => st
  | some (oid, _) =>
    let isFullRefund := c.amount_refunded == c.amount
    { st with
      orders := updateOrder st.orders oid (fun d =>
        { d with
          status := if isFullRefund then .refunded else .partially_refunded,
          refundedAmount := some ((c.amount_refunded : Rat) / 100),
          refundedAt := true,
          updatedAt := true }) }

/-- A verified Stripe webhook event, tagged as in the handler's switch on
event.type; `other` covers unhandled event types. -/
inductive StripeEvent where
  | checkoutCompleted (s : StripeSession)
  | checkoutExpired (s : StripeSession)
  | paymentFailed (p : PaymentIntentEv)
  | chargeRefunded (c : ChargeEv)
  | other (eventType : String)
deriving DecidableEq, Repr

/-- The dispatch switch of `stripeWebhook`. -/
def applyStripeEvent (st : Store) : StripeEvent → Store
  | .checkoutCompleted s => handleCheckoutComplete st s
  | .checkoutExpired s => handleCheckoutExpired st s
  | .paymentFailed p => handlePaymentFailed st p
  | .chargeRefunded c => handleChargeRefunded st c
  | .other _ => st

/-- An inbound Stripe webhook request: the outcome of
`stripe.webhooks.constructEvent` is an oracle input — `.error` models the
exception thrown on an invalid signature. -/
structure StripeWebhookRequest where
  method : String
  constructResult : Except String StripeEvent

/-- Embeds the `stripeWebhook` endpoint. -/
def stripeWebhook (req : StripeWebhookRequest) (st : Store) : Nat × Store :=
  if req.method ≠ "POST" then (405, st)
  else
    match req.constructResult with
    | .error _ => (400, st)
    | .ok e => (200, applyStripeEvent st e)

/-! ## PayPal webhook reconciler

Embeds functions/src/paypal/webhookHandler.js. -/

/-- The fields of a PayPal capture-event resource read by the handlers:
`custom_id` carries the Firestore order id, `amount.value` the
processor-reported amount (a missing amount is read as 0 by the source's
`parseFloat(amount.value || 0)`). -/
structure PPResource where
  id : String
  custom_id : Option String := none
  amount_value : Option Rat := none
  amount_currency : Option String := none
deriving DecidableEq, Repr

/-- Embeds `handleCaptureCompleted(resource)`: direct lookup by the order
id in `custom_id`; no write when the order is missing. -/
def handleCaptureCompleted (st : Store) (r : PPResource) : Store :=
  match strTruthy r.custom_id with
  | none => st
  | some oid =>
    match getOrder st.orders oid with
    | none => st
    | some _ =>
      { st with
        orders := updateOrder st.orders oid (fun d =>
          { d with
            status := .paid,
            paymentStatus := some "COMPLETED",
            paypalCaptureId := some r.id,
            amountTotal := some (r.amount_value.getD 0),
            currency := jsOrStr r.amount_currency (some "USD"),
            paidAt := true,
            updatedAt := true }) }

/-- Embeds `handleCaptureDenied(resource)`. -/
def handleCaptureDenied (st : Store) (r : PPResource) : Store :=
  match strTruthy r.custom_id with
  | none => st
  | some oid =>
    match getOrder st.orders oid with
    | none => st
    | some _ =>
      { st with
        orders := updateOrder st.orders oid (fun d =>
          { d with
            status := .payment_failed,
            paymentError := some "Payment was denied by PayPal",
            updatedAt := true }) }

/-- Embeds `handleCaptureRefunded(resource)`: lookup by capture id; the
refund is full when the refunded amount is within 0.01 of the order's
amountTotal. -/
def handleCaptureRefunded (st : Store) (r : PPResource) : Store :=
  let refundAmount := r.amount_value.getD 0
  match queryFirst st.orders (fun d => decide (d.paypalCaptureId = some r.id)) with
  | none => st
  | some (oid, od) =>
    let originalAmount := od.amountTotal.getD 0
    let isFullRefund := decide (|refundAmount - originalAmount| < 1 / 100)
    { st with
      orders := updateOrder st.orders oid (fun d =>
        { d with
          status := if isFullRefund then .refunded else .partially_refunded,
          refundedAmount := some refundAmount,
          refundedAt := true,
          updatedAt := true }) }

/-- A PayPal webhook event, tagged as in the handler's switch on
`event_type`; `orderApproved` and `other` perform no store write. -/
inductive PayPalEvent where
  | captureCompleted (r : PPResource)
  | captureDenied (r : PPResource)
  | captureRefunded (r : PPResource)
  | orderApproved (r : PPResource)
  | other (eventType : String)
deriving DecidableEq, Repr

/-- The dispatch switch of `paypalWebhook`. -/
def applyPayPalEvent (st : Store) : PayPalEvent → Store
  | .captureCompleted r => handleCaptureCompleted st r
  | .captureDenied r => handleCaptureDenied st r
  | .captureRefunded r => handleCaptureRefunded st r
  | .orderApproved _ => st
  | .other _ => st

/-- The environment of `verifyWebhookSignature`: the configured webhook
id, the outcome of the `getAccessToken` call (`.error` models the thrown
exception), and the processor's verify-webhook-signature endpoint as an
oracle over the transmission headers and event body (`.error` models a
non-ok HTTP response, `.ok b` whether `verification_status` equals
SUCCESS). -/
structure PayPalEnv where
  webhookId : Option String
  tokenResult : Except Unit String
  verifyResponse : List (String × String) → PayPalEvent → Except Unit Bool

/-- Embeds `verifyWebhookSignature(headers, body)`.  The first component
is the returned verdict, the second records whether the
verify-webhook-signature endpoint was called.  The access token is
fetched before the webhook id is checked; a thrown token fetch is caught
and yields false; a missing webhook id yields true without calling the
verify endpoint. -/
def verifyWebhookSignature (env : PayPalEnv) (headers : List (String × String))
    (event : PayPalEvent) : Bool × Bool :=
  match env.tokenResult with
  | .error _ => (false, false)
  | .ok _ =>
    match strTruthy env.webhookId with
    | none => (true, false)
    | some _ =>
      match env.verifyResponse headers event with
      | .error _ => (false, true)
      | .ok b => (b, true)

/-- An inbound PayPal webhook request. -/
structure PayPalWebhookRequest where
  method : String
  headers : List (String × String)
  event : PayPalEvent

/-- Embeds the `paypalWebhook` endpoint: a failed verification is
answered with status 401 and no store change. -/
def paypalWebhook (env : PayPalEnv) (req : PayPalWebhookRequest) (st : Store) :
    Nat × Store :=
  if req.method ≠ "POST" then (405, st)
  else if (verifyWebhookSignature env req.headers req.event).1 = false then (401, st)
  else (200, applyPayPalEvent st req.event)

/-! ## PayPal capture endpoint

Embeds functions/src/paypal/capturePayPalOrder.js. -/

/-- The capture object inside the processor's capture result
(purchase_units[0].payments.captures[0]). -/
structure CapturePayment where
  id : String
  amount_value : Rat
  amount_currency : String
deriving DecidableEq, Repr

/-- The payer's name object. -/
structure PayerName where
  given_name : Option String := none
  surname : Option String := none
deriving DecidableEq, Repr

/-- The payer object of the capture result. -/
structure PayerInfo where
  payer_id : Option String := none
  email_address : Option String := none
  name : Option PayerName := none
deriving DecidableEq, Repr

/-- The shipping object of the capture result. -/
structure CaptureShipping where
  address : Option String := none
  full_name : Option String := none
deriving DecidableEq, Repr

/-- The processor's reply to OrdersCaptureRequest when the call
resolves. -/
structure CaptureResult where
  status : String
  payment : CapturePayment
  payer : Option PayerInfo := none
  shipping : Option CaptureShipping := none
deriving DecidableEq, Repr

/-- The outcome of `client.execute(OrdersCaptureRequest)`: `.apiError`
models a thrown SDK error carrying an optional HTTP status code (for
example 422 for a second capture of an already-captured order). -/
inductive CaptureOutcome where
  | ok (r : CaptureResult)
  | apiError (statusCode : Option Nat)
deriving DecidableEq, Repr

/-- The JSON body shapes returned by the capture endpoint. -/
inductive CaptureResponse where
  | completed (captureId : String) (orderId : Option String)
  | failedStatus (status : String)
  | missingId
  | methodNotAllowed
  | errorMsg
deriving DecidableEq, Repr

/-- A request to the capture endpoint. -/
structure CaptureRequest where
  method : String
  paypalOrderId : Option String := none
deriving DecidableEq, Repr

/-- The customerName formatting of the capture endpoint:
trim(given_name + space + surname). -/
def formatPayerName (n : PayerName) : String :=
  ((n.given_name.getD "") ++ " " ++ (n.surname.getD "")).trim

/-- Embeds the `capturePayPalOrder` endpoint.  A thrown SDK error is
answered with the error's status code (500 when absent) and no store
change; a non-COMPLETED capture status is answered with 400 and no store
change; on COMPLETED the order found by paypalOrderId is marked paid with
the processor-reported amount and mirrored into the owner's order
history; a missing order record still answers 200. -/
def capturePayPalOrder (req : CaptureRequest) (outcome : CaptureOutcome)
    (st : Store) : Nat × CaptureResponse × Store :=
  if req.method ≠ "POST" then (405, .methodNotAllowed, st)
  else
    match strTruthy req.paypalOrderId with
    | none => (400, .missingId, st)
    | some pid =>
      match outcome with
      | .apiError c => (c.getD 500, .errorMsg, st)
      | .ok r =>
        if r.status ≠ "COMPLETED" then (400, .failedStatus r.status, st)
        else
          match queryFirst st.orders (fun d => decide (d.paypalOrderId = some pid)) with
          | none => (200, .completed r.payment.id none, st)
          | some (oid, od) =>
            let payer := r.payer.getD {}
            let shipping := r.shipping.getD {}
            let st1 : Store :=
              { st with
                orders := updateOrder st.orders oid (fun d =>
                  { d with
                    status := .paid,
                    paymentStatus := some r.status,
                    amountTotal := some r.payment.amount_value,
                    currency := some r.payment.amount_currency,
                    paypalCaptureId := some r.payment.id,
                    paypalPayerId := strTruthy payer.payer_id,
                    customerEmail := jsOrStr payer.email_address (strTruthy od.customerEmail),
                    customerName := (payer.name.map formatPayerName),
                    shippingAddress := strTruthy shipping.address,
                    shippingName := strTruthy shipping.full_name,
                    paidAt := true,
                    updatedAt := true }) }
            let st2 : Store :=
              match strTruthy od.userId with
              | some uid =>
                { st1 with
                  userOrders := setUserOrder st1.userOrders (uid, oid)
                    { status := .paid,
                      amountTotal := some r.payment.amount_value,
                      items := od.items,
                      createdAt := od.createdAt,
                      paidAt := true } }
              | none => st1
            (200, .completed r.payment.id (some oid), st2)

/-! ## Checkout-session initiators

Embeds functions/src/stripe/createCheckoutSession.js and
functions/src/paypal/createPayPalOrder.js at the granularity of the
claims about them: request validation, the tiered line-item prices, the
order of the outbound processor calls relative to the pending-order
write, and the created pending order.  A processor call that throws is
modelled by the `processorOk` oracle being false, in which case the
handler answers 5xx from its catch block and the pending-order write
(which only comes after the calls in the source) never happens. -/

/-- A client cart item as sent to the initiators. -/
structure CheckoutItem where
  id : String
  name : String
  quantity : Nat
  price : Option Rat := none
  image : Option String := none
  sku : Option String := none
  priceId : Option String := none
deriving DecidableEq, Repr

/-- A request to either initiator.  `items = none` models a missing or
non-array items field. -/
structure CheckoutRequest where
  method : String
  items : Option (List CheckoutItem) := none
  customerEmail : Option String := none
  userId : Option String := none
  usePaymentLink : Bool := false
deriving DecidableEq, Repr

/-- The externally visible effects of an initiator run, in program
order. -/
inductive InitEffect where
  | processorCall
  | pendingOrderWrite
deriving DecidableEq, Repr

/-- A Stripe line item built by `validateAndBuildLineItems` (only the
fields the claims are about). -/
structure LineItem where
  name : String
  unit_amount : Nat
  quantity : Nat
deriving DecidableEq, Repr

/-- Embeds `validateAndBuildLineItems(items)`: every item is priced by
the tier table (unknown ids fall to the standard tier); no item is
rejected. -/
def validateAndBuildLineItems (items : List CheckoutItem) : List LineItem :=
  items.map fun it =>
    { name := it.name,
      unit_amount := stripeUnitAmount it.id it.name it.quantity,
      quantity := it.quantity }

/-- The pending order document created by either initiator (the fields
the claims are about). -/
structure PendingOrderRec where
  status : OrderStatus
  items : List CheckoutItem
  customerEmail : Option String
  userId : Option String
deriving DecidableEq, Repr

/-- Embeds the `createCheckoutSession` endpoint.  `processorOk` is the
oracle for the outbound Stripe calls; `extraProductCalls` counts the
additional product-management calls of the payment-link branch (0 when
`products.list` finds the shared product, 1 when `products.create` is
needed).  The result is the HTTP status, the effect trace and the pending
order written, if any. -/
def createCheckoutSession (req : CheckoutRequest) (processorOk : Bool)
    (extraProductCalls : Nat) : Nat × List InitEffect × Option PendingOrderRec :=
  if req.method ≠ "POST" then (405, [], none)
  else
    match req.items with
    | none => (400, [], none)
    | some items =>
      if items.isEmpty then (400, [], none)
      else
        let calls : List InitEffect :=
          if req.usePaymentLink then
            List.replicate (1 + extraProductCalls) .processorCall ++
              [.processorCall, .processorCall]
          else
            [.processorCall]
        if processorOk then
          (200, calls ++ [.pendingOrderWrite],
           some { status := .pending, items := items,
                  customerEmail := req.customerEmail, userId := req.userId })
        else
          (500, calls, none)

/-- Embeds the `createPayPalOrder` endpoint.  `approvalFound` is whether
the created order carries an approval link (its absence throws after the
processor call, before the write). -/
def createPayPalOrder (req : CheckoutRequest) (processorOk : Bool)
    (approvalFound : Bool) : Nat × List InitEffect × Option PendingOrderRec :=
  if req.method ≠ "POST" then (405, [], none)
  else
    match req.items with
    | none => (400, [], none)
    | some items =>
      if items.isEmpty then (400, [], none)
      else if processorOk = false then (500, [.processorCall], none)
      else if approvalFound = false then (500, [.processorCall], none)
      else
        (200, [.processorCall, .pendingOrderWrite],
         some { status := .pending, items := items,
                customerEmail := req.customerEmail, userId := req.userId })

/-- The property claimed of an effect trace: every processor call is
preceded by a pending-order write.  The accumulator records whether a
write has already happened. -/
def writeBeforeCalls (seenWrite : Bool) : List InitEffect → Bool
  | [] => true
  | .processorCall :: rest => seenWrite && writeBeforeCalls seenWrite rest
  | .pendingOrderWrite :: rest => writeBeforeCalls true rest

def emptyStore : Store := { orders := [], userOrders := [] }

def cexItem : CheckoutItem := { id := "bpc-157", name := "BPC-157 5mg", quantity := 2 }

def cexCheckoutReq : CheckoutRequest := { method := "POST", items := some [cexItem] }

/-- C3 counterexample: for a concrete valid checkout request both
initiators issue the processor call first and write the pending order
afterwards, so the claimed property that every processor call is
preceded by a completed pending-order write fails on the very first
effect of the trace. -/
theorem processor_call_precedes_pending_write :
    (createCheckoutSession cexCheckoutReq true 0).2.1 =
      [.processorCall, .pendingOrderWrite] ∧
    writeBeforeCalls false (createCheckoutSession cexCheckoutReq true 0).2.1 = false ∧
    (createPayPalOrder cexCheckoutReq true true).2.1 =
      [.processorCall, .pendingOrderWrite] ∧
    writeBeforeCalls false (createPayPalOrder cexCheckoutReq true true).2.1 = false := by
  refine ⟨rfl, by decide, rfl, by decide⟩

/-- C3 (amended): in every successful run of either initiator the
pending-order document is written exactly once, after all processor
calls: the effect trace is one or more processor calls followed by the
single pending-order write, so the processor call is always issued while
no pending order document exists yet. -/
theorem pending_write_after_processor_calls (req : CheckoutRequest)
    (items : List CheckoutItem) (extra : Nat)
    (hm : req.method = "POST") (hi : req.items = some items) (hne : items ≠ []) :
    (∃ n : Nat, 1 ≤ n ∧
      (createCheckoutSession req true extra).2.1 =
        List.replicate n .processorCall ++ [.pendingOrderWrite]) ∧
    (createPayPalOrder req true true).2.1 =
      [.processorCall, .pendingOrderWrite] := by
  have hie : items.isEmpty = false := by
    cases items with
    | nil => exact absurd rfl hne
    | cons a as => rfl
  constructor
  · unfold createCheckoutSession
    simp only [hm, hi, hie, ne_eq, not_true_eq_false, ite_false, Bool.false_eq_true,
      if_true, if_false]
    by_cases hpl : req.usePaymentLink
    · refine ⟨extra + 3, by omega, ?_⟩
      simp only [hpl, ite_true, if_true]
      have hrep : List.replicate (extra + 3) InitEffect.processorCall =
          List.replicate (1 + extra) InitEffect.processorCall ++
            List.replicate 2 InitEffect.processorCall := by
        rw [← List.replicate_add]
        congr 1
        omega
      rw [hrep]
      simp only [List.append_assoc]
      rfl
    · refine ⟨1, le_refl 1, ?_⟩
      simp only [hpl, ite_false, Bool.false_eq_true, if_false]
      rfl
  · unfold createPayPalOrder
    simp only [hm, hi, hie, ne_eq, not_true_eq_false, ite_false, Bool.false_eq_true,
      if_true, if_false]
    rfl

/-- Witness for the amended C3 theorem at a concrete one-item request. -/
theorem pending_write_after_processor_calls_witness :
    (∃ n : Nat, 1 ≤ n ∧
      (createCheckoutSession cexCheckoutReq true 0).2.1 =
        List.replicate n .processorCall ++ [.pendingOrderWrite]) ∧
    (createPayPalOrder cexCheckoutReq true true).2.1 =
      [.processorCall, .pendingOrderWrite] :=
  pending_write_after_processor_calls cexCheckoutReq [cexItem] 0 rfl rfl
    (by decide)

/-- The product ids with an explicit branch in the tier table. -/
def knownIds : List String :=
  ["nadplus", "reta", "mots-c", "pt-141", "ipamorelin", "bpc-157", "ghk-cu", "tesamorelin"]

def unknownItem : CheckoutItem := { id := "widget-9000", name := "Widget 9000", quantity := 3 }

def unknownSkuReq : CheckoutRequest := { method := "POST", items := some [unknownItem] }

/-- C4 counterexample: a checkout request whose only item has an id
outside the recognized product set is not rejected: the initiator answers
200, prices the item by the default 5500-cent tier, and creates a pending
order containing the unknown item. -/
theorem unknown_sku_accepted_with_default_tier :
    (createCheckoutSession unknownSkuReq true 0).1 = 200 ∧
    (createCheckoutSession unknownSkuReq true 0).2.2 =
      some { status := .pending, items := [unknownItem],
             customerEmail := none, userId := none } ∧
    validateAndBuildLineItems [unknownItem] =
      [{ name := "Widget 9000", unit_amount := 5500, quantity := 3 }] ∧
    "widget-9000" ∉ knownIds := by
  refine ⟨rfl, rfl, by decide, by decide⟩

/-- C4 (amended): the initiator answers 400 exactly when the items field
is missing, not an array, or the empty list; an unrecognized sku is never
rejected — any id outside the tier table whose name does not match the
NAD+ or RETA families is priced by the standard default tier
(5500/4400/3500 cents). -/
theorem checkout_rejects_only_missing_or_empty (req : CheckoutRequest)
    (ok : Bool) (extra : Nat) (hm : req.method = "POST") :
    ((createCheckoutSession req ok extra).1 = 400 ↔
      (req.items = none ∨ req.items = some [])) ∧
    (∀ id name q, id ∉ knownIds → jsIncludes name "NAD+" = false →
      jsIncludes name "RETA" = false →
      stripeUnitAmount id name q =
        (if q ≥ 25 then 3500 else if q ≥ 10 then 4400 else 5500)) := by
  constructor
  · cases hri : req.items with
    | none => simp [createCheckoutSession, hm, hri]
    | some items =>
      cases items with
      | nil => simp [createCheckoutSession, hm, hri]
      | cons a as => cases ok <;> simp [createCheckoutSession, hm, hri]
  · intro id name q hid hn hr
    simp only [knownIds, List.mem_cons, List.not_mem_nil, or_false, not_or] at hid
    obtain ⟨e1, e2, e3, e4, e5, e6, e7, e8⟩ := hid
    simp [stripeUnitAmount, hn, hr, e1, e2, e3, e4, e5, e6, e7, e8, beq_iff_eq]

def emptyItemsReq : CheckoutRequest := { method := "POST", items := some [] }

/-- Witness for the amended C4 theorem: the empty cart is rejected with
400 and an unknown id gets the default lowest tier at quantity 30. -/
theorem checkout_rejects_only_missing_or_empty_witness :
    (createCheckoutSession emptyItemsReq true 0).1 = 400 ∧
    stripeUnitAmount "tb-500" "TB-500 10mg" 30 = 3500 := by
  have h := checkout_rejects_only_missing_or_empty emptyItemsReq true 0 rfl
  refine ⟨h.1.mpr (Or.inr rfl), ?_⟩
  rw [h.2 "tb-500" "TB-500 10mg" 30 (by decide) (by decide) (by decide)]
  rfl

def cexPPEnv : PayPalEnv :=
  { webhookId := some "WH-1", tokenResult := .ok "token",
    verifyResponse := fun _ _ => .ok false }

def cexPPWebhookReq : PayPalWebhookRequest :=
  { method := "POST", headers := [],
    event := .other "PAYMENT.CAPTURE.COMPLETED" }

/-- C2 counterexample: a PayPal webhook request whose verification call
does not return SUCCESS is answered with status 401, not the claimed 400
(the store is indeed unchanged). -/
theorem paypal_verification_failure_returns_401 :
    (verifyWebhookSignature cexPPEnv cexPPWebhookReq.headers cexPPWebhookReq.event).1 = false ∧
    paypalWebhook cexPPEnv cexPPWebhookReq emptyStore = (401, emptyStore) ∧
    (401 : Nat) ≠ 400 := by
  refine ⟨rfl, rfl, by decide⟩

/-- C2 (amended): a webhook request whose authenticity verification fails
produces no write to the order store; the Stripe endpoint answers 400
(its constructEvent throws) while the PayPal endpoint answers 401. -/
theorem webhook_verification_failure_no_write (st : Store)
    (sreq : StripeWebhookRequest) (err : String) (env : PayPalEnv)
    (preq : PayPalWebhookRequest)
    (hsm : sreq.method = "POST") (hse : sreq.constructResult = .error err)
    (hpm : preq.method = "POST")
    (hpv : (verifyWebhookSignature env preq.headers preq.event).1 = false) :
    stripeWebhook sreq st = (400, st) ∧ paypalWebhook env preq st = (401, st) := by
  constructor
  · unfold stripeWebhook
    rw [if_neg (by simp [hsm]), hse]
  · unfold paypalWebhook
    rw [if_neg (by simp [hpm]), if_pos hpv]

/-- Witness for the amended C2 theorem. -/
theorem webhook_verification_failure_no_write_witness :
    stripeWebhook { method := "POST", constructResult := .error "invalid signature" }
      emptyStore = (400, emptyStore) ∧
    paypalWebhook cexPPEnv cexPPWebhookReq emptyStore = (401, emptyStore) :=
  webhook_verification_failure_no_write emptyStore
    { method := "POST", constructResult := .error "invalid signature" }
    "invalid signature" cexPPEnv cexPPWebhookReq rfl rfl rfl rfl

def capCexReq : CaptureRequest := { method := "POST", paypalOrderId := some "PAYPAL-ORDER-1" }

/-- C6 counterexample: capturing an already-captured reference makes the
processor SDK throw (HTTP 422); the endpoint forwards the error instead
of detecting the case and returning the captured status as success. -/
theorem second_capture_returns_error_not_success :
    capturePayPalOrder capCexReq (.apiError (some 422)) emptyStore =
      (422, .errorMsg, emptyStore) ∧
    (422 : Nat) ≠ 200 := by
  refine ⟨rfl, by decide⟩

/-- C6 (amended): a second capture of the same reference does not
double-charge — the processor rejects it and the endpoint performs no
store write — but the caller sees the processor's error response (the
SDK error's status code, 500 when absent), not the successful captured
status. -/
theorem capture_api_error_passthrough (st : Store) (req : CaptureRequest)
    (pid : String) (c : Option Nat)
    (hm : req.method = "POST") (hp : strTruthy req.paypalOrderId = some pid) :
    capturePayPalOrder req (.apiError c) st = (c.getD 500, .errorMsg, st) := by
  unfold capturePayPalOrder
  rw [if_neg (by simp [hm]), hp]

/-- Witness for the amended C6 theorem. -/
theorem capture_api_error_passthrough_witness :
    capturePayPalOrder capCexReq (.apiError (some 422)) emptyStore =
      (422, .errorMsg, emptyStore) :=
  capture_api_error_passthrough emptyStore capCexReq "PAYPAL-ORDER-1" (some 422) rfl rfl

def noWebhookIdEnvBadToken : PayPalEnv :=
  { webhookId := none, tokenResult := .error (),
    verifyResponse := fun _ _ => .ok true }

/-- C10 counterexample: even with PAYPAL_WEBHOOK_ID unset,
verifyWebhookSignature does not return true for every request — the
access-token fetch runs first (contacting the processor's token
endpoint), and when it throws the caught exception makes verification
return false. -/
theorem verify_false_on_token_failure :
    (verifyWebhookSignature noWebhookIdEnvBadToken [] (.other "EVT")).1 = false := rfl

/-- C10 (amended): with PAYPAL_WEBHOOK_ID unset, once the access-token
fetch succeeds (the token endpoint is still contacted first),
verifyWebhookSignature returns true for every request regardless of the
transmission headers and body, without calling the
verify-webhook-signature endpoint, and the webhook endpoint then treats
every event as authentic and applies its state transitions. -/
theorem missing_webhook_id_fail_open (env : PayPalEnv) (tok : String)
    (st : Store) (req : PayPalWebhookRequest)
    (hw : env.webhookId = none) (ht : env.tokenResult = .ok tok)
    (hm : req.method = "POST") :
    (∀ headers event, verifyWebhookSignature env headers event = (true, false)) ∧
    paypalWebhook env req st = (200, applyPayPalEvent st req.event) := by
  have hv : ∀ headers event, verifyWebhookSignature env headers event = (true, false) := by
    intro hs ev
    unfold verifyWebhookSignature
    rw [ht, hw]
    rfl
  refine ⟨hv, ?_⟩
  unfold paypalWebhook
  rw [if_neg (by simp [hm]), hv req.headers req.event, if_neg (by decide)]

def noWebhookIdEnv : PayPalEnv :=
  { webhookId := none, tokenResult := .ok "token",
    verifyResponse := fun _ _ => .ok false }

def ppApprovedReq : PayPalWebhookRequest :=
  { method := "POST", headers := [("paypal-transmission-id", "t1")],
    event := .orderApproved { id := "CAP-1" } }

/-- Witness for the amended C10 theorem: the configured verify oracle
would answer false, yet the event is accepted and processed. -/
theorem missing_webhook_id_fail_open_witness :
    verifyWebhookSignature noWebhookIdEnv ppApprovedReq.headers ppApprovedReq.event =
      (true, false) ∧
    paypalWebhook noWebhookIdEnv ppApprovedReq emptyStore =
      (200, applyPayPalEvent emptyStore ppApprovedReq.event) := by
  have h := missing_webhook_id_fail_open noWebhookIdEnv "token" emptyStore ppApprovedReq
    rfl rfl rfl
  exact ⟨h.1 ppApprovedReq.headers ppApprovedReq.event, h.2⟩

theorem getOrder_updateOrder (l : List (String × OrderDoc)) (oid : String)
    (f : OrderDoc → OrderDoc) (oid2 : String) :
    getOrder (updateOrder l oid f) oid2 =
      (getOrder l oid2).map (fun d => if oid2 = oid then f d else d) := by
  induction l with
  | nil => rfl
  | cons e rest ih =>
    obtain ⟨k, d⟩ := e
    by_cases hk : k = oid
    · subst hk
      by_cases hk2 : k = oid2
      · subst hk2
        simp [updateOrder, getOrder, List.find?_cons]
      · simp only [updateOrder, getOrder] at ih
        simp only [updateOrder, getOrder, List.map_cons, List.find?_cons,
          eq_self_iff_true, ite_true, hk2, decide_False, ite_false]
        exact ih
    · by_cases hk2 : k = oid2
      · subst hk2
        simp [updateOrder, getOrder, List.find?_cons, hk, Ne.symm hk]
      · simp only [updateOrder, getOrder] at ih
        simp only [updateOrder, getOrder, List.map_cons, List.find?_cons,
          hk, hk2, decide_False, ite_false]
        exact ih

theorem queryFirst_updateOrder (l : List (String × OrderDoc)) (oid : String)
    (f : OrderDoc → OrderDoc) (p : OrderDoc → Bool) (hp : ∀ d, p (f d) = p d) :
    queryFirst (updateOrder l oid f) p =
      (queryFirst l p).map (fun e => if e.1 = oid then (e.1, f e.2) else e) := by
  induction l with
  | nil => rfl
  | cons e rest ih =>
    obtain ⟨k, d⟩ := e
    by_cases hk : k = oid
    · subst hk
      cases hpd : p d with
      | true => simp [updateOrder, queryFirst, List.find?_cons, hp, hpd]
      | false =>
        simp only [updateOrder, queryFirst] at ih
        simp only [updateOrder, queryFirst, List.map_cons, List.find?_cons,
          eq_self_iff_true, ite_true, hp, hpd]
        exact ih
    · cases hpd : p d with
      | true => simp [updateOrder, queryFirst, List.find?_cons, hpd, hk]
      | false =>
        simp only [updateOrder, queryFirst] at ih
        simp only [updateOrder, queryFirst, List.map_cons, List.find?_cons,
          hk, ite_false, hpd]
        exact ih

theorem queryFirst_updateOrder_of_none (l : List (String × OrderDoc)) (oid : String)
    (f : OrderDoc → OrderDoc) (p : OrderDoc → Bool)
    (hnone : queryFirst l p = none) (hall : ∀ d, p (f d) = true) :
    queryFirst (updateOrder l oid f) p =
      (l.find? (fun e => decide (e.1 = oid))).map (fun e => (e.1, f e.2)) := by
  induction l with
  | nil => rfl
  | cons e rest ih =>
    obtain ⟨k, d⟩ := e
    have hpd : p d = false := by
      cases hpd : p d with
      | true =>
        exfalso
        have hx := hnone
        simp [queryFirst, List.find?_cons, hpd] at hx
      | false => rfl
    have hrest : queryFirst rest p = none := by
      have hx := hnone
      simpa [queryFirst, List.find?_cons, hpd] using hx
    by_cases hk : k = oid
    · subst hk
      simp [updateOrder, queryFirst, List.find?_cons, hall]
    · simp only [updateOrder, queryFirst] at ih
      simp only [updateOrder, queryFirst, List.map_cons, List.find?_cons,
        hk, ite_false, hpd, decide_False]
      exact ih hrest

theorem updateOrder_updateOrder (l : List (String × OrderDoc)) (oid : String)
    (f g : OrderDoc → OrderDoc) :
    updateOrder (updateOrder l oid f) oid g = updateOrder l oid (fun d => g (f d)) := by
  induction l with
  | nil => rfl
  | cons e rest ih =>
    obtain ⟨k, d⟩ := e
    by_cases hk : k = oid
    · subst hk
      simp only [updateOrder] at ih
      simp only [updateOrder, List.map_cons, eq_self_iff_true, ite_true]
      rw [ih]
    · simp only [updateOrder] at ih
      simp only [updateOrder, List.map_cons, hk, ite_false]
      rw [ih]

theorem updateOrder_congr (l : List (String × OrderDoc)) (oid : String)
    (f g : OrderDoc → OrderDoc) (h : ∀ d, f d = g d) :
    updateOrder l oid f = updateOrder l oid g := by
  induction l with
  | nil => rfl
  | cons e rest ih =>
    simp only [updateOrder, List.map_cons] at ih ⊢
    rw [ih, h]

theorem setUserOrder_setUserOrder (l : List ((String × String) × UserOrderRec))
    (k : String × String) (v : UserOrderRec) :
    setUserOrder (setUserOrder l k v) k v = setUserOrder l k v := by
  have fid : ∀ e : (String × String) × UserOrderRec,
      (if (if e.1 = k then (k, v) else e).1 = k then (k, v)
       else (if e.1 = k then (k, v) else e)) = (if e.1 = k then (k, v) else e) := by
    intro e
    by_cases he : e.1 = k
    · simp [he]
    · simp [he]
  by_cases h : l.any (fun e => e.1 = k) = true
  · have h2 : (List.map (fun e => if e.1 = k then (k, v) else e) l).any
        (fun e => e.1 = k) = true := by
      obtain ⟨e, hel, hpe⟩ := List.any_eq_true.mp h
      have hek : e.1 = k := of_decide_eq_true hpe
      refine List.any_eq_true.mpr
        ⟨if e.1 = k then (k, v) else e, List.mem_map_of_mem _ hel, ?_⟩
      simp [hek]
    unfold setUserOrder
    rw [if_pos h, if_pos h2, List.map_map]
    refine List.map_congr_left ?_
    intro e _
    exact fid e
  · have hfalse : ∀ e ∈ l, ¬(e.1 = k) := by
      intro e hel hek
      exact h (List.any_eq_true.mpr ⟨e, hel, by simp [hek]⟩)
    have hmapid : List.map (fun e => if e.1 = k then (k, v) else e) l = l := by
      have hid2 : List.map (fun e => if e.1 = k then (k, v) else e) l = List.map id l := by
        refine List.map_congr_left ?_
        intro e hel
        simp [hfalse e hel]
      rw [hid2, List.map_id]
    have h2 : (l ++ [(k, v)]).any (fun e => e.1 = k) = true := by
      refine List.any_eq_true.mpr ⟨(k, v), by simp, by simp⟩
    unfold setUserOrder
    rw [if_neg h, if_pos h2, List.map_append, hmapid]
    congr 1
    simp

/-- True for every status a reconciler write can produce: all statuses
except pending. -/
def nonPendingStatus : OrderStatus → Bool
  | .pending => false
  | _ => true

theorem statusList_or (orders : List (String × OrderDoc)) (oid2 oid : String)
    (f : OrderDoc → OrderDoc) (hf : ∀ d, nonPendingStatus (f d).status = true) :
    (getOrder (updateOrder orders oid f) oid2).map (fun d => d.status) =
      (getOrder orders oid2).map (fun d => d.status) ∨
    ∃ snew, (getOrder (updateOrder orders oid f) oid2).map (fun d => d.status) = some snew ∧
      nonPendingStatus snew = true := by
  rw [getOrder_updateOrder]
  cases hg : getOrder orders oid2 with
  | none => left; rfl
  | some d =>
    by_cases h2 : oid2 = oid
    · right
      exact ⟨(f d).status, by simp [h2], hf d⟩
    · left
      simp [h2]

theorem uol_snd_shape (orders : List (String × OrderDoc)) (s : StripeSession)
    (f : OrderDoc → OrderDoc) :
    (updateOrderLookup orders s f).2 = orders ∨
      ∃ oid g, (updateOrderLookup orders s f).2 = updateOrder orders oid g ∧
        ∀ d, (g d).status = (f d).status := by
  unfold updateOrderLookup
  split
  · next oid d heq =>
    right
    exact ⟨oid, fun d2 => { f d2 with updatedAt := true }, rfl, fun d2 => rfl⟩
  · next heq =>
    split
    · next moid heq2 =>
      split
      · next d heq3 =>
        right
        exact ⟨moid, fun d2 => { f d2 with stripeSessionId := some s.id, updatedAt := true },
          rfl, fun d2 => rfl⟩
      · next heq3 => left; rfl
    · next heq2 => left; rfl

theorem handleCheckoutComplete_orders (st : Store) (s : StripeSession) :
    (handleCheckoutComplete st s).orders =
      (updateOrderLookup st.orders s (checkoutCompleteUpdates s)).2 := by
  unfold handleCheckoutComplete
  split
  · next orders1 heq =>
    rw [heq]
  · next oid orders1 heq =>
    rw [heq]
    split
    · rfl
    · split
      · rfl
      · rfl

theorem statusOf_handleCheckoutComplete_or (st : Store) (s : StripeSession) (oid2 : String) :
    statusOf (handleCheckoutComplete st s) oid2 = statusOf st oid2 ∨
      ∃ snew, statusOf (handleCheckoutComplete st s) oid2 = some snew ∧
        nonPendingStatus snew = true := by
  have horders := handleCheckoutComplete_orders st s
  rcases uol_snd_shape st.orders s (checkoutCompleteUpdates s) with h | ⟨oid, g, hupd, hstat⟩
  · left
    unfold statusOf
    rw [horders, h]
  · have hf : ∀ d, nonPendingStatus (g d).status = true := by
      intro d
      rw [hstat d]
      rfl
    unfold statusOf
    rw [horders, hupd]
    exact statusList_or st.orders oid2 oid g hf

theorem statusOf_handleCheckoutExpired_or (st : Store) (s : StripeSession) (oid2 : String) :
    statusOf (handleCheckoutExpired st s) oid2 = statusOf st oid2 ∨
      ∃ snew, statusOf (handleCheckoutExpired st s) oid2 = some snew ∧
        nonPendingStatus snew = true := by
  rcases uol_snd_shape st.orders s (fun d => { d with status := .expired })
      with h | ⟨oid, g, hupd, hstat⟩
  · left
    unfold statusOf handleCheckoutExpired
    rw [h]
  · have hf : ∀ d, nonPendingStatus (g d).status = true := by
      intro d
      rw [hstat d]
      rfl
    unfold statusOf handleCheckoutExpired
    rw [hupd]
    exact statusList_or st.orders oid2 oid g hf

theorem statusOf_handlePaymentFailed_or (st : Store) (p : PaymentIntentEv) (oid2 : String) :
    statusOf (handlePaymentFailed st p) oid2 = statusOf st oid2 ∨
      ∃ snew, statusOf (handlePaymentFailed st p) oid2 = some snew ∧
        nonPendingStatus snew = true := by
  unfold handlePaymentFailed
  split
  · left; rfl
  · next oid d heq =>
    exact statusList_or st.orders oid2 oid
      (fun d2 =>
        { d2 with
          status := .payment_failed,
          paymentError := jsOrStr p.lastErrorMessage (some "Payment failed"),
          updatedAt := true })
      (fun d2 => rfl)

theorem statusOf_handleChargeRefunded_or (st : Store) (c : ChargeEv) (oid2 : String) :
    statusOf (handleChargeRefunded st c) oid2 = statusOf st oid2 ∨
      ∃ snew, statusOf (handleChargeRefunded st c) oid2 = some snew ∧
        nonPendingStatus snew = true := by
  unfold handleChargeRefunded
  split
  · left; rfl
  · next oid d heq =>
    refine statusList_or st.orders oid2 oid
      (fun d2 =>
        { d2 with
          status := if c.amount_refunded == c.amount then .refunded else .partially_refunded,
          refundedAmount := some ((c.amount_refunded : Rat) / 100),
          refundedAt := true,
          updatedAt := true }) ?_
    intro d2
    by_cases hfull : (c.amount_refunded == c.amount) = true <;>
      simp [hfull, nonPendingStatus]

theorem statusOf_handleCaptureCompleted_or (st : Store) (r : PPResource) (oid2 : String) :
    statusOf (handleCaptureCompleted st r) oid2 = statusOf st oid2 ∨
      ∃ snew, statusOf (handleCaptureCompleted st r) oid2 = some snew ∧
        nonPendingStatus snew = true := by
  unfold handleCaptureCompleted
  split
  · left; rfl
  · next oid heq =>
    split
    · left; rfl
    · next d heq2 =>
      exact statusList_or st.orders oid2 oid
        (fun d2 =>
          { d2 with
            status := .paid,
            paymentStatus := some "COMPLETED",
            paypalCaptureId := some r.id,
            amountTotal := some (r.amount_value.getD 0),
            currency := jsOrStr r.amount_currency (some "USD"),
            paidAt := true,
            updatedAt := true })
        (fun d2 => rfl)

theorem statusOf_handleCaptureDenied_or (st : Store) (r : PPResource) (oid2 : String) :
    statusOf (handleCaptureDenied st r) oid2 = statusOf st oid2 ∨
      ∃ snew, statusOf (handleCaptureDenied st r) oid2 = some snew ∧
        nonPendingStatus snew = true := by
  unfold handleCaptureDenied
  split
  · left; rfl
  · next oid heq =>
    split
    · left; rfl
    · next d heq2 =>
      exact statusList_or st.orders oid2 oid
        (fun d2 =>
          { d2 with
            status := .payment_failed,
            paymentError := some "Payment was denied by PayPal",
            updatedAt := true })
        (fun d2 => rfl)

theorem statusOf_handleCaptureRefunded_or (st : Store) (r : PPResource) (oid2 : String) :
    statusOf (handleCaptureRefunded st r) oid2 = statusOf st oid2 ∨
      ∃ snew, statusOf (handleCaptureRefunded st r) oid2 = some snew ∧
        nonPendingStatus snew = true := by
  unfold handleCaptureRefunded
  split
  · left; rfl
  · next oid od heq =>
    refine statusList_or st.orders oid2 oid
      (fun d2 =>
        { d2 with
          status :=
            if decide (|r.amount_value.getD 0 - od.amountTotal.getD 0| < 1 / 100) then
              .refunded
            else .partially_refunded,
          refundedAmount := some (r.amount_value.getD 0),
          refundedAt := true,
          updatedAt := true }) ?_
    intro d2
    by_cases hfull : |r.amount_value.getD 0 - od.amountTotal.getD 0| < (100 : Rat)⁻¹ <;>
      simp [hfull, nonPendingStatus]

def expiredOrder : OrderDoc := { status := .expired, stripeSessionId := some "cs_1" }

def cexC1Store : Store := { orders := [("o1", expiredOrder)], userOrders := [] }

def cexC1Session : StripeSession := { id := "cs_1" }

/-- C1 counterexample: a checkout-completed event that arrives for an
order already expired does not leave the status unchanged — the Stripe
handler overwrites it back to paid, a transition outside the claimed
graph. -/
theorem completed_event_overwrites_expired :
    statusOf cexC1Store "o1" = some .expired ∧
    statusOf (applyStripeEvent cexC1Store (.checkoutCompleted cexC1Session)) "o1" =
      some .paid := by
  constructor
  · rfl
  · rfl

/-- C1 (amended): the reconcilers do not guard transitions — a handler
overwrites the status dictated by its event type whatever the current
status is — but for every store, webhook event and order the status is
either left unchanged or set to one of paid, expired, payment_failed,
refunded, partially_refunded; in particular no event ever sets the
status of any order back to pending. -/
theorem reconcilers_never_set_pending (st : Store) (e : StripeEvent)
    (pe : PayPalEvent) (oid : String) :
    (statusOf (applyStripeEvent st e) oid = statusOf st oid ∨
      ∃ snew, statusOf (applyStripeEvent st e) oid = some snew ∧
        nonPendingStatus snew = true) ∧
    (statusOf (applyPayPalEvent st pe) oid = statusOf st oid ∨
      ∃ snew, statusOf (applyPayPalEvent st pe) oid = some snew ∧
        nonPendingStatus snew = true) := by
  constructor
  · cases e with
    | checkoutCompleted s => exact statusOf_handleCheckoutComplete_or st s oid
    | checkoutExpired s => exact statusOf_handleCheckoutExpired_or st s oid
    | paymentFailed p => exact statusOf_handlePaymentFailed_or st p oid
    | chargeRefunded c => exact statusOf_handleChargeRefunded_or st c oid
    | other t => left; rfl
  · cases pe with
    | captureCompleted r => exact statusOf_handleCaptureCompleted_or st r oid
    | captureDenied r => exact statusOf_handleCaptureDenied_or st r oid
    | captureRefunded r => exact statusOf_handleCaptureRefunded_or st r oid
    | orderApproved r => left; rfl
    | other t => left; rfl

theorem getOrder_isSome_of_queryFirst (orders : List (String × OrderDoc))
    (p : OrderDoc → Bool) (oid : String) (d : OrderDoc)
    (h : queryFirst orders p = some (oid, d)) :
    ∃ d2, getOrder orders oid = some d2 := by
  have hmem : (oid, d) ∈ orders := List.mem_of_find?_eq_some h
  unfold getOrder
  cases hf : orders.find? (fun e => decide (e.1 = oid)) with
  | some e => exact ⟨e.2, rfl⟩
  | none =>
    exfalso
    have hnone := List.find?_eq_none.mp hf (oid, d) hmem
    simp at hnone

theorem amountTotal_handleCheckoutComplete_primary (st : Store) (s : StripeSession)
    (oid : String) (d0 : OrderDoc)
    (hq : queryFirst st.orders (fun d => decide (d.stripeSessionId = some s.id)) =
      some (oid, d0)) :
    amountTotalOf (handleCheckoutComplete st s) oid =
      some (some ((s.amount_total : Rat) / 100)) := by
  have h2 : (updateOrderLookup st.orders s (checkoutCompleteUpdates s)).2 =
      updateOrder st.orders oid
        (fun d => { checkoutCompleteUpdates s d with updatedAt := true }) := by
    unfold updateOrderLookup
    rw [hq]
  obtain ⟨d2, hg⟩ := getOrder_isSome_of_queryFirst st.orders _ oid d0 hq
  unfold amountTotalOf
  rw [handleCheckoutComplete_orders, h2, getOrder_updateOrder, hg]
  simp [checkoutCompleteUpdates]

theorem amountTotal_handleCheckoutComplete_fallback (st : Store) (s : StripeSession)
    (moid : String) (dm : OrderDoc)
    (hq : queryFirst st.orders (fun d => decide (d.stripeSessionId = some s.id)) = none)
    (hm : strTruthy s.metadata_orderId = some moid)
    (hg : getOrder st.orders moid = some dm) :
    amountTotalOf (handleCheckoutComplete st s) moid =
      some (some ((s.amount_total : Rat) / 100)) := by
  have h2 : (updateOrderLookup st.orders s (checkoutCompleteUpdates s)).2 =
      updateOrder st.orders moid
        (fun d => { checkoutCompleteUpdates s d with
          stripeSessionId := some s.id, updatedAt := true }) := by
    unfold updateOrderLookup
    rw [hq]
    dsimp only
    rw [hm]
    dsimp only
    rw [hg]
  unfold amountTotalOf
  rw [handleCheckoutComplete_orders, h2, getOrder_updateOrder, hg]
  simp [checkoutCompleteUpdates]

theorem amountTotal_handleCaptureCompleted (st : Store) (r : PPResource)
    (oid : String) (d0 : OrderDoc)
    (hc : strTruthy r.custom_id = some oid)
    (hg : getOrder st.orders oid = some d0) :
    amountTotalOf (handleCaptureCompleted st r) oid =
      some (some (r.amount_value.getD 0)) := by
  unfold handleCaptureCompleted
  rw [hc]
  dsimp only
  rw [hg]
  dsimp only
  unfold amountTotalOf
  dsimp only
  rw [getOrder_updateOrder, hg]
  simp

theorem amountTotal_capturePayPalOrder (st : Store) (req : CaptureRequest)
    (cr : CaptureResult) (pid oid : String) (od : OrderDoc)
    (hm : req.method = "POST") (hp : strTruthy req.paypalOrderId = some pid)
    (hs : cr.status = "COMPLETED")
    (hq : queryFirst st.orders (fun d => decide (d.paypalOrderId = some pid)) =
      some (oid, od)) :
    amountTotalOf (capturePayPalOrder req (.ok cr) st).2.2 oid =
      some (some cr.payment.amount_value) := by
  obtain ⟨d2, hg⟩ := getOrder_isSome_of_queryFirst st.orders _ oid od hq
  unfold capturePayPalOrder
  rw [if_neg (by simp [hm]), hp]
  dsimp only
  rw [if_neg (by simp [hs]), hq]
  dsimp only
  cases hu : strTruthy od.userId with
  | none =>
    unfold amountTotalOf
    dsimp only
    rw [getOrder_updateOrder, hg]
    simp
  | some uid =>
    unfold amountTotalOf
    dsimp only
    rw [getOrder_updateOrder, hg]
    simp

/-- C9: for every order that reaches paid, the amountTotal written on the
order document comes from the processor payload alone — the Stripe
reconciler writes session.amount_total converted from cents to dollars
(divided by 100), the PayPal reconciler writes the capture resource's
amount value, and the capture endpoint writes the capture payment's
amount value; no client-supplied price or total enters the computation,
whichever lookup path resolves the order. -/
theorem amountTotal_from_processor (st : Store) (s : StripeSession) (r : PPResource)
    (req : CaptureRequest) (cr : CaptureResult)
    (oid1 moid oid3 pid oid4 : String) (d1 dm d3 od4 : OrderDoc) :
    (queryFirst st.orders (fun d => decide (d.stripeSessionId = some s.id)) =
        some (oid1, d1) →
      amountTotalOf (handleCheckoutComplete st s) oid1 =
        some (some ((s.amount_total : Rat) / 100))) ∧
    (queryFirst st.orders (fun d => decide (d.stripeSessionId = some s.id)) = none →
      strTruthy s.metadata_orderId = some moid →
      getOrder st.orders moid = some dm →
      amountTotalOf (handleCheckoutComplete st s) moid =
        some (some ((s.amount_total : Rat) / 100))) ∧
    (strTruthy r.custom_id = some oid3 →
      getOrder st.orders oid3 = some d3 →
      amountTotalOf (handleCaptureCompleted st r) oid3 =
        some (some (r.amount_value.getD 0))) ∧
    (req.method = "POST" → strTruthy req.paypalOrderId = some pid →
      cr.status = "COMPLETED" →
      queryFirst st.orders (fun d => decide (d.paypalOrderId = some pid)) =
        some (oid4, od4) →
      amountTotalOf (capturePayPalOrder req (.ok cr) st).2.2 oid4 =
        some (some cr.payment.amount_value)) :=
  ⟨fun hq => amountTotal_handleCheckoutComplete_primary st s oid1 d1 hq,
   fun hq hm hg => amountTotal_handleCheckoutComplete_fallback st s moid dm hq hm hg,
   fun hc hg => amountTotal_handleCaptureCompleted st r oid3 d3 hc hg,
   fun hm hp hs hq => amountTotal_capturePayPalOrder st req cr pid oid4 od4 hm hp hs hq⟩

def c9Order : OrderDoc :=
  { status := .pending, stripeSessionId := some "cs_9", paypalOrderId := some "PP-9" }

def c9Store : Store := { orders := [("o9", c9Order)], userOrders := [] }

def c9Session : StripeSession := { id := "cs_9", amount_total := 2500 }

def c9SessionB : StripeSession :=
  { id := "cs_9b", amount_total := 2500, metadata_orderId := some "o9" }

def c9Resource : PPResource :=
  { id := "CAP-9", custom_id := some "o9", amount_value := some 25 }

def c9CaptureReq : CaptureRequest := { method := "POST", paypalOrderId := some "PP-9" }

def c9CaptureResult : CaptureResult :=
  { status := "COMPLETED",
    payment := { id := "CAP-9", amount_value := 25, amount_currency := "USD" } }

/-- Witness for the C9 theorem on a concrete one-order store, through all
four reconciliation paths. -/
theorem amountTotal_from_processor_witness :
    amountTotalOf (handleCheckoutComplete c9Store c9Session) "o9" =
      some (some ((c9Session.amount_total : Rat) / 100)) ∧
    amountTotalOf (handleCheckoutComplete c9Store c9SessionB) "o9" =
      some (some ((c9SessionB.amount_total : Rat) / 100)) ∧
    amountTotalOf (handleCaptureCompleted c9Store c9Resource) "o9" =
      some (some (c9Resource.amount_value.getD 0)) ∧
    amountTotalOf (capturePayPalOrder c9CaptureReq (.ok c9CaptureResult) c9Store).2.2 "o9" =
      some (some c9CaptureResult.payment.amount_value) := by
  have h1 := amountTotal_from_processor c9Store c9Session c9Resource c9CaptureReq
    c9CaptureResult "o9" "o9" "o9" "PP-9" "o9" c9Order c9Order c9Order c9Order
  have h2 := amountTotal_from_processor c9Store c9SessionB c9Resource c9CaptureReq
    c9CaptureResult "o9" "o9" "o9" "PP-9" "o9" c9Order c9Order c9Order c9Order
  exact ⟨h1.1 rfl, h2.2.1 rfl rfl rfl, h1.2.2.1 rfl rfl, h1.2.2.2 rfl rfl rfl rfl⟩

theorem uol_twice (orders : List (String × OrderDoc)) (s : StripeSession)
    (f : OrderDoc → OrderDoc)
    (hsid : ∀ d, (f d).stripeSessionId = d.stripeSessionId)
    (h11 : ∀ d, ({ f ({ f d with updatedAt := true }) with updatedAt := true } : OrderDoc) =
      { f d with updatedAt := true })
    (h12 : ∀ d, ({ f ({ f d with stripeSessionId := some s.id, updatedAt := true }) with
        updatedAt := true } : OrderDoc) =
      { f d with stripeSessionId := some s.id, updatedAt := true }) :
    updateOrderLookup (updateOrderLookup orders s f).2 s f =
      updateOrderLookup orders s f := by
  have hp1 : ∀ d : OrderDoc,
      (fun d => decide (d.stripeSessionId = some s.id))
        ({ f d with updatedAt := true } : OrderDoc) =
      (fun d => decide (d.stripeSessionId = some s.id)) d := by
    intro d
    dsimp only
    rw [hsid d]
  cases hq : queryFirst orders (fun d => decide (d.stripeSessionId = some s.id)) with
  | some e =>
    obtain ⟨oid, d0⟩ := e
    have hrun1 : updateOrderLookup orders s f =
        (some oid, updateOrder orders oid (fun d => { f d with updatedAt := true })) := by
      unfold updateOrderLookup
      rw [hq]
    have hsnd : (updateOrderLookup orders s f).2 =
        updateOrder orders oid (fun d => { f d with updatedAt := true }) := by
      rw [hrun1]
    rw [hsnd, hrun1]
    unfold updateOrderLookup
    rw [queryFirst_updateOrder orders oid _ _ hp1, hq]
    simp only [Option.map_some', if_true]
    rw [updateOrder_updateOrder]
    rw [updateOrder_congr orders oid _ _ h11]
  | none =>
    cases hm : strTruthy s.metadata_orderId with
    | none =>
      have hrun1 : updateOrderLookup orders s f = (none, orders) := by
        unfold updateOrderLookup
        rw [hq]
        dsimp only
        rw [hm]
      have hsnd : (updateOrderLookup orders s f).2 = orders := by
        rw [hrun1]
      rw [hsnd]
    | some moid =>
      cases hg : getOrder orders moid with
      | none =>
        have hrun1 : updateOrderLookup orders s f = (none, orders) := by
          unfold updateOrderLookup
          rw [hq]
          dsimp only
          rw [hm]
          dsimp only
          rw [hg]
        have hsnd : (updateOrderLookup orders s f).2 = orders := by
          rw [hrun1]
        rw [hsnd]
      | some d0 =>
        have hrun1 : updateOrderLookup orders s f =
            (some moid, updateOrder orders moid
              (fun d => { f d with stripeSessionId := some s.id, updatedAt := true })) := by
          unfold updateOrderLookup
          rw [hq]
          dsimp only
          rw [hm]
          dsimp only
          rw [hg]
        obtain ⟨e0, hf0, he0⟩ : ∃ e0, orders.find? (fun e => decide (e.1 = moid)) = some e0 ∧
            e0.2 = d0 := by
          unfold getOrder at hg
          cases hf : orders.find? (fun e => decide (e.1 = moid)) with
          | none => rw [hf] at hg; exact absurd hg (by simp)
          | some e0 => rw [hf] at hg; exact ⟨e0, rfl, by simpa using hg⟩
        obtain ⟨k0, dv0⟩ := e0
        have hkey : k0 = moid := by
          have hfs := List.find?_some hf0
          simpa using hfs
        subst hkey
        have hall : ∀ d : OrderDoc,
            (fun d => decide (d.stripeSessionId = some s.id))
              ({ f d with stripeSessionId := some s.id, updatedAt := true } : OrderDoc) =
              true := by
          intro d
          simp
        have hsnd : (updateOrderLookup orders s f).2 =
            updateOrder orders k0
              (fun d => { f d with stripeSessionId := some s.id, updatedAt := true }) := by
          rw [hrun1]
        rw [hsnd, hrun1]
        unfold updateOrderLookup
        rw [queryFirst_updateOrder_of_none orders k0 _ _ hq hall, hf0]
        simp only [Option.map_some']
        rw [updateOrder_updateOrder]
        rw [updateOrder_congr orders k0 _ _ h12]

theorem handleCheckoutExpired_idem (st : Store) (s : StripeSession) :
    handleCheckoutExpired (handleCheckoutExpired st s) s = handleCheckoutExpired st s := by
  have htwice := uol_twice st.orders s (fun d => { d with status := .expired })
    (fun d => rfl) (fun d => rfl) (fun d => rfl)
  unfold handleCheckoutExpired
  dsimp only
  rw [htwice]

theorem handleCheckoutComplete_idem (st : Store) (s : StripeSession) :
    handleCheckoutComplete (handleCheckoutComplete st s) s = handleCheckoutComplete st s := by
  have htwice := uol_twice st.orders s (checkoutCompleteUpdates s)
    (fun d => rfl) (fun d => rfl) (fun d => rfl)
  rcases hu1 : updateOrderLookup st.orders s (checkoutCompleteUpdates s) with ⟨oOpt, orders1⟩
  rw [hu1] at htwice
  cases oOpt with
  | none =>
    have hst1 : handleCheckoutComplete st s = ⟨orders1, st.userOrders⟩ := by
      unfold handleCheckoutComplete
      rw [hu1]
    have run2 : ∀ u : List ((String × String) × UserOrderRec),
        handleCheckoutComplete ⟨orders1, u⟩ s = ⟨orders1, u⟩ := by
      intro u
      unfold handleCheckoutComplete
      rw [show (⟨orders1, u⟩ : Store).orders = orders1 from rfl, htwice]
    rw [hst1, run2]
  | some oid =>
    cases hg : getOrder orders1 oid with
    | none =>
      have hst1 : handleCheckoutComplete st s = ⟨orders1, st.userOrders⟩ := by
        unfold handleCheckoutComplete
        rw [hu1]
        dsimp only
        rw [hg]
      have run2 : ∀ u : List ((String × String) × UserOrderRec),
          handleCheckoutComplete ⟨orders1, u⟩ s = ⟨orders1, u⟩ := by
        intro u
        unfold handleCheckoutComplete
        rw [show (⟨orders1, u⟩ : Store).orders = orders1 from rfl, htwice]
        dsimp only
        rw [hg]
      rw [hst1, run2]
    | some od =>
      cases hu : strTruthy od.userId with
      | none =>
        have hst1 : handleCheckoutComplete st s = ⟨orders1, st.userOrders⟩ := by
          unfold handleCheckoutComplete
          rw [hu1]
          dsimp only
          rw [hg]
          dsimp only
          rw [hu]
        have run2 : ∀ u : List ((String × String) × UserOrderRec),
            handleCheckoutComplete ⟨orders1, u⟩ s = ⟨orders1, u⟩ := by
          intro u
          unfold handleCheckoutComplete
          rw [show (⟨orders1, u⟩ : Store).orders = orders1 from rfl, htwice]
          dsimp only
          rw [hg]
          dsimp only
          rw [hu]
        rw [hst1, run2]
      | some uid =>
        have hst1 : handleCheckoutComplete st s =
            ⟨orders1, setUserOrder st.userOrders (uid, oid)
              { status := .paid,
                amountTotal := some ((s.amount_total : Rat) / 100),
                items := od.items,
                createdAt := od.createdAt,
                paidAt := true }⟩ := by
          unfold handleCheckoutComplete
          rw [hu1]
          dsimp only
          rw [hg]
          dsimp only
          rw [hu]
        have run2 : ∀ u : List ((String × String) × UserOrderRec),
            handleCheckoutComplete ⟨orders1, u⟩ s =
              ⟨orders1, setUserOrder u (uid, oid)
                { status := .paid,
                  amountTotal := some ((s.amount_total : Rat) / 100),
                  items := od.items,
                  createdAt := od.createdAt,
                  paidAt := true }⟩ := by
          intro u
          unfold handleCheckoutComplete
          rw [show (⟨orders1, u⟩ : Store).orders = orders1 from rfl, htwice]
          dsimp only
          rw [hg]
          dsimp only
          rw [hu]
        rw [hst1, run2, setUserOrder_setUserOrder]

theorem handlePaymentFailed_idem (st : Store) (p : PaymentIntentEv) :
    handlePaymentFailed (handlePaymentFailed st p) p = handlePaymentFailed st p := by
  cases hq : queryFirst st.orders (fun d => decide (d.stripePaymentIntentId = some p.id)) with
  | none =>
    have hst1 : handlePaymentFailed st p = st := by
      unfold handlePaymentFailed
      rw [hq]
    rw [hst1, hst1]
  | some e =>
    obtain ⟨oid, d0⟩ := e
    have hst1 : handlePaymentFailed st p =
        ⟨updateOrder st.orders oid (fun d =>
          { d with
            status := .payment_failed,
            paymentError := jsOrStr p.lastErrorMessage (some "Payment failed"),
            updatedAt := true }), st.userOrders⟩ := by
      unfold handlePaymentFailed
      rw [hq]
    have run2 : ∀ u, handlePaymentFailed
        ⟨updateOrder st.orders oid (fun d =>
          { d with
            status := .payment_failed,
            paymentError := jsOrStr p.lastErrorMessage (some "Payment failed"),
            updatedAt := true }), u⟩ p =
        ⟨updateOrder st.orders oid (fun d =>
          { d with
            status := .payment_failed,
            paymentError := jsOrStr p.lastErrorMessage (some "Payment failed"),
            updatedAt := true }), u⟩ := by
      intro u
      unfold handlePaymentFailed
      dsimp only
      rw [queryFirst_updateOrder st.orders oid
        (fun d =>
          { d with
            status := .payment_failed,
            paymentError := jsOrStr p.lastErrorMessage (some "Payment failed"),
            updatedAt := true })
        (fun d => decide (d.stripePaymentIntentId = some p.id)) (fun d => rfl), hq]
      simp only [Option.map_some', if_true]
      rw [updateOrder_updateOrder]
    rw [hst1, run2]

theorem handleChargeRefunded_idem (st : Store) (c : ChargeEv) :
    handleChargeRefunded (handleChargeRefunded st c) c = handleChargeRefunded st c := by
  cases hq : queryFirst st.orders
      (fun d => decide (d.stripePaymentIntentId = some c.payment_intent)) with
  | none =>
    have hst1 : handleChargeRefunded st c = st := by
      unfold handleChargeRefunded
      rw [hq]
    rw [hst1, hst1]
  | some e =>
    obtain ⟨oid, d0⟩ := e
    have hst1 : handleChargeRefunded st c =
        ⟨updateOrder st.orders oid (fun d =>
          { d with
            status := if c.amount_refunded == c.amount then .refunded else .partially_refunded,
            refundedAmount := some ((c.amount_refunded : Rat) / 100),
            refundedAt := true,
            updatedAt := true }), st.userOrders⟩ := by
      unfold handleChargeRefunded
      rw [hq]
    have run2 : ∀ u, handleChargeRefunded
        ⟨updateOrder st.orders oid (fun d =>
          { d with
            status := if c.amount_refunded == c.amount then .refunded else .partially_refunded,
            refundedAmount := some ((c.amount_refunded : Rat) / 100),
            refundedAt := true,
            updatedAt := true }), u⟩ c =
        ⟨updateOrder st.orders oid (fun d =>
          { d with
            status := if c.amount_refunded == c.amount then .refunded else .partially_refunded,
            refundedAmount := some ((c.amount_refunded : Rat) / 100),
            refundedAt := true,
            updatedAt := true }), u⟩ := by
      intro u
      unfold handleChargeRefunded
      dsimp only
      rw [queryFirst_updateOrder st.orders oid
        (fun d =>
          { d with
            status := if c.amount_refunded == c.amount then .refunded else .partially_refunded,
            refundedAmount := some ((c.amount_refunded : Rat) / 100),
            refundedAt := true,
            updatedAt := true })
        (fun d => decide (d.stripePaymentIntentId = some c.payment_intent)) (fun d => rfl), hq]
      simp only [Option.map_some', if_true]
      rw [updateOrder_updateOrder]
    rw [hst1, run2]

theorem handleCaptureCompleted_idem (st : Store) (r : PPResource) :
    handleCaptureCompleted (handleCaptureCompleted st r) r = handleCaptureCompleted st r := by
  cases hc : strTruthy r.custom_id with
  | none =>
    have hst1 : handleCaptureCompleted st r = st := by
      unfold handleCaptureCompleted
      rw [hc]
    rw [hst1, hst1]
  | some oid =>
    cases hg : getOrder st.orders oid with
    | none =>
      have hst1 : handleCaptureCompleted st r = st := by
        unfold handleCaptureCompleted
        rw [hc]
        dsimp only
        rw [hg]
      rw [hst1, hst1]
    | some d0 =>
      have hst1 : handleCaptureCompleted st r =
          ⟨updateOrder st.orders oid (fun d =>
            { d with
              status := .paid,
              paymentStatus := some "COMPLETED",
              paypalCaptureId := some r.id,
              amountTotal := some (r.amount_value.getD 0),
              currency := jsOrStr r.amount_currency (some "USD"),
              paidAt := true,
              updatedAt := true }), st.userOrders⟩ := by
        unfold handleCaptureCompleted
        rw [hc]
        dsimp only
        rw [hg]
      have run2 : ∀ u, handleCaptureCompleted
          ⟨updateOrder st.orders oid (fun d =>
            { d with
              status := .paid,
              paymentStatus := some "COMPLETED",
              paypalCaptureId := some r.id,
              amountTotal := some (r.amount_value.getD 0),
              currency := jsOrStr r.amount_currency (some "USD"),
              paidAt := true,
              updatedAt := true }), u⟩ r =
          ⟨updateOrder st.orders oid (fun d =>
            { d with
              status := .paid,
              paymentStatus := some "COMPLETED",
              paypalCaptureId := some r.id,
              amountTotal := some (r.amount_value.getD 0),
              currency := jsOrStr r.amount_currency (some "USD"),
              paidAt := true,
              updatedAt := true }), u⟩ := by
        intro u
        unfold handleCaptureCompleted
        rw [hc]
        dsimp only
        rw [getOrder_updateOrder, hg]
        simp only [Option.map_some', if_true]
        rw [updateOrder_updateOrder]
      rw [hst1, run2]

theorem handleCaptureDenied_idem (st : Store) (r : PPResource) :
    handleCaptureDenied (handleCaptureDenied st r) r = handleCaptureDenied st r := by
  cases hc : strTruthy r.custom_id with
  | none =>
    have hst1 : handleCaptureDenied st r = st := by
      unfold handleCaptureDenied
      rw [hc]
    rw [hst1, hst1]
  | some oid =>
    cases hg : getOrder st.orders oid with
    | none =>
      have hst1 : handleCaptureDenied st r = st := by
        unfold handleCaptureDenied
        rw [hc]
        dsimp only
        rw [hg]
      rw [hst1, hst1]
    | some d0 =>
      have hst1 : handleCaptureDenied st r =
          ⟨updateOrder st.orders oid (fun d =>
            { d with
              status := .payment_failed,
              paymentError := some "Payment was denied by PayPal",
              updatedAt := true }), st.userOrders⟩ := by
        unfold handleCaptureDenied
        rw [hc]
        dsimp only
        rw [hg]
      have run2 : ∀ u, handleCaptureDenied
          ⟨updateOrder st.orders oid (fun d =>
            { d with
              status := .payment_failed,
              paymentError := some "Payment was denied by PayPal",
              updatedAt := true }), u⟩ r =
          ⟨updateOrder st.orders oid (fun d =>
            { d with
              status := .payment_failed,
              paymentError := some "Payment was denied by PayPal",
              updatedAt := true }), u⟩ := by
        intro u
        unfold handleCaptureDenied
        rw [hc]
        dsimp only
        rw [getOrder_updateOrder, hg]
        simp only [Option.map_some', if_true]
        rw [updateOrder_updateOrder]
      rw [hst1, run2]

theorem handleCaptureRefunded_idem (st : Store) (r : PPResource) :
    handleCaptureRefunded (handleCaptureRefunded st r) r = handleCaptureRefunded st r := by
  cases hq : queryFirst st.orders (fun d => decide (d.paypalCaptureId = some r.id)) with
  | none =>
    have hst1 : handleCaptureRefunded st r = st := by
      unfold handleCaptureRefunded
      rw [hq]
    rw [hst1, hst1]
  | some e =>
    obtain ⟨oid, od⟩ := e
    have hst1 : handleCaptureRefunded st r =
        ⟨updateOrder st.orders oid (fun d =>
          { d with
            status :=
              if decide (|r.amount_value.getD 0 - od.amountTotal.getD 0| < 1 / 100) then
                .refunded
              else .partially_refunded,
            refundedAmount := some (r.amount_value.getD 0),
            refundedAt := true,
            updatedAt := true }), st.userOrders⟩ := by
      unfold handleCaptureRefunded
      rw [hq]
    have run2 : ∀ u, handleCaptureRefunded
        ⟨updateOrder st.orders oid (fun d =>
          { d with
            status :=
              if decide (|r.amount_value.getD 0 - od.amountTotal.getD 0| < 1 / 100) then
                .refunded
              else .partially_refunded,
            refundedAmount := some (r.amount_value.getD 0),
            refundedAt := true,
            updatedAt := true }), u⟩ r =
        ⟨updateOrder st.orders oid (fun d =>
          { d with
            status :=
              if decide (|r.amount_value.getD 0 - od.amountTotal.getD 0| < 1 / 100) then
                .refunded
              else .partially_refunded,
            refundedAmount := some (r.amount_value.getD 0),
            refundedAt := true,
            updatedAt := true }), u⟩ := by
      intro u
      unfold handleCaptureRefunded
      dsimp only
      rw [queryFirst_updateOrder st.orders oid
        (fun d =>
          { d with
            status :=
              if decide (|r.amount_value.getD 0 - od.amountTotal.getD 0| < 1 / 100) then
                OrderStatus.refunded
              else OrderStatus.partially_refunded,
            refundedAmount := some (r.amount_value.getD 0),
            refundedAt := true,
            updatedAt := true })
        (fun d => decide (d.paypalCaptureId = some r.id)) (fun d => rfl), hq]
      simp only [Option.map_some', if_true]
      rw [updateOrder_updateOrder]
    rw [hst1, run2]

/-- C7: Webhook processing is replay-idempotent: for every event dispatched by
the Stripe or PayPal webhook switch, applying it twice to the store leaves the
order collection and the mirrored user order-history records in the identical
final state reached by applying it once, so no monetary field or status write
is applied twice and re-applying a paid event to an already-paid order is a
no-op. -/
theorem webhook_replay_idempotent (st : Store) (e : StripeEvent) (pe : PayPalEvent) :
    applyStripeEvent (applyStripeEvent st e) e = applyStripeEvent st e ∧
    applyPayPalEvent (applyPayPalEvent st pe) pe = applyPayPalEvent st pe := by
  constructor
  · cases e with
    | checkoutCompleted s => exact handleCheckoutComplete_idem st s
    | checkoutExpired s => exact handleCheckoutExpired_idem st s
    | paymentFailed p => exact handlePaymentFailed_idem st p
    | chargeRefunded c => exact handleChargeRefunded_idem st c
    | other s => rfl
  · cases pe with
    | captureCompleted r => exact handleCaptureCompleted_idem st r
    | captureDenied r => exact handleCaptureDenied_idem st r
    | captureRefunded r => exact handleCaptureRefunded_idem st r
    | orderApproved r => rfl
    | other s => rfl
